import Mathlib

/-!
Verification development for the ledger-analytics layer of the business-adk
repository.  The Python tool modules under `src/manager/**/tools/tools.py`
are shallowly embedded: the SQLite store is a record of row lists, each SQL
query is translated to the corresponding list computation, floating-point
amounts are modelled as exact rationals, and every tool function becomes a
total Lean function returning its result record together with the number of
queries it issued against the store (the second component of the pair).
Wall-clock timestamp fields of the Python result dictionaries are elided.
-/

namespace BizAdk

/-! ### Calendar dates (`YYYY-MM-DD` strings in the store and in tool inputs) -/

/-- A calendar date, the parsed form of a `YYYY-MM-DD` string. -/
structure Date where
  y : Nat
  m : Nat
  d : Nat
deriving DecidableEq, Repr

/-- Lexicographic order on dates, matching both `datetime` comparison and
SQLite text comparison of zero-padded `YYYY-MM-DD` strings. -/
def Date.leP (a b : Date) : Prop :=
  a.y < b.y ∨ (a.y = b.y ∧ (a.m < b.m ∨ (a.m = b.m ∧ a.d ≤ b.d)))

instance : DecidableRel Date.leP := fun a b => by
  unfold Date.leP; infer_instance

/-- Boolean form of `Date.leP`. -/
def Date.leb (a b : Date) : Bool := decide (Date.leP a b)

/-- Gregorian leap-year test (as in Python's `datetime`/SQLite). -/
def isLeap (y : Nat) : Bool :=
  (y % 4 == 0 && y % 100 != 0) || (y % 400 == 0)

/-- Days in a month of a given year. -/
def daysInMonth (y m : Nat) : Nat :=
  match m with
  | 1 => 31 | 3 => 31 | 5 => 31 | 7 => 31 | 8 => 31 | 10 => 31 | 12 => 31
  | 4 => 30 | 6 => 30 | 9 => 30 | 11 => 30
  | 2 => if isLeap y then 29 else 28
  | _ => 0

/-- Days of the year strictly before month `m` (1-based). -/
def monthPrefix (y m : Nat) : Nat :=
  let l : Nat := if isLeap y then 1 else 0
  match m with
  | 1 => 0 | 2 => 31 | 3 => 59 + l | 4 => 90 + l | 5 => 120 + l | 6 => 151 + l
  | 7 => 181 + l | 8 => 212 + l | 9 => 243 + l | 10 => 273 + l | 11 => 304 + l
  | _ => 334 + l

/-- 1-based day of the year. -/
def dayOfYear (d : Date) : Nat := monthPrefix d.y d.m + d.d

/-- Day of the week with Monday = 0, via Zeller's congruence. -/
def weekdayMon (dt : Date) : Nat :=
  let m := if dt.m < 3 then dt.m + 12 else dt.m
  let y := if dt.m < 3 then dt.y - 1 else dt.y
  let k := y % 100
  let j := y / 100
  -- Zeller: 0 = Saturday; shift so that 0 = Monday
  (dt.d + (13 * (m + 1)) / 5 + k + k / 4 + j / 4 + 5 * j + 5) % 7

/-- The `%W` week number (week of year, Monday as first day, `00`–`53`),
the convention used by SQLite's `strftime('%W', ...)`. -/
def weekW (d : Date) : Nat :=
  (dayOfYear d - 1 + 7 - weekdayMon d) / 7

/-- The decimal digit character for `n % 10`. -/
def digitChar (n : Nat) : Char :=
  match n % 10 with
  | 0 => '0' | 1 => '1' | 2 => '2' | 3 => '3' | 4 => '4'
  | 5 => '5' | 6 => '6' | 7 => '7' | 8 => '8' | _ => '9'

/-- Two-digit zero-padded decimal rendering (for months, days, weeks). -/
def pad2 (n : Nat) : List Char := [digitChar (n / 10), digitChar n]

/-- Four-digit zero-padded decimal rendering (for years). -/
def pad4 (n : Nat) : List Char :=
  [digitChar (n / 1000), digitChar (n / 100), digitChar (n / 10), digitChar n]

/-- The `YYYY-MM-DD` rendering of a date (SQLite `DATE(...)` output). -/
def Date.toStr (d : Date) : String :=
  ⟨pad4 d.y ++ '-' :: pad2 d.m ++ '-' :: pad2 d.d⟩

/-- The `strftime('%Y-%m', ...)` monthly key. -/
def keyYm (d : Date) : String := ⟨pad4 d.y ++ '-' :: pad2 d.m⟩

/-- The `strftime('%Y-%W', ...)` weekly key. -/
def keyYW (d : Date) : String := ⟨pad4 d.y ++ '-' :: pad2 (weekW d)⟩

/-- Digit-string to number; `none` on empty or non-digit input. -/
def digitsToNat : List Char → Option Nat
  | [] => none
  | cs => go cs 0
where
  go : List Char → Nat → Option Nat
  | [], acc => some acc
  | c :: cs, acc =>
    if 48 ≤ c.toNat ∧ c.toNat ≤ 57 then go cs (acc * 10 + (c.toNat - 48))
    else none

/-- Split a character list on a separator (the semantics of
`String.splitOn` for a one-character separator). -/
def splitChar (sep : Char) : List Char → List (List Char)
  | [] => [[]]
  | c :: cs =>
    let r := splitChar sep cs
    if c = sep then [] :: r
    else match r with
      | [] => [[c]]
      | g :: gs => (c :: g) :: gs

/-- `datetime.strptime(s, "%Y-%m-%d")`: a four-digit year and one- or
two-digit month and day, validated against the calendar. -/
def parseDate (s : String) : Option Date :=
  match splitChar '-' s.data with
  | [ys, ms, ds] => do
    let y ← digitsToNat ys
    let m ← digitsToNat ms
    let d ← digitsToNat ds
    if ys.length = 4 ∧ 1 ≤ ms.length ∧ ms.length ≤ 2 ∧ 1 ≤ ds.length ∧ ds.length ≤ 2
        ∧ 1 ≤ m ∧ m ≤ 12 ∧ 1 ≤ d ∧ d ≤ daysInMonth y m then
      some ⟨y, m, d⟩
    else none
  | _ => none

/-- The previous calendar day. -/
def Date.prevDay (dt : Date) : Date :=
  if dt.d > 1 then ⟨dt.y, dt.m, dt.d - 1⟩
  else if dt.m > 1 then ⟨dt.y, dt.m - 1, daysInMonth dt.y (dt.m - 1)⟩
  else ⟨dt.y - 1, 12, 31⟩

/-- `dt - timedelta(days = n)`. -/
def Date.subDays (dt : Date) : Nat → Date
  | 0 => dt
  | n + 1 => (Date.subDays dt n).prevDay

/-! ### String helpers (SQL `LIKE '%pat%'` and text ordering) -/

/-- ASCII lower-casing of a character (SQLite `LIKE` is ASCII case-insensitive). -/
def lowerChar (c : Char) : Char :=
  if 65 ≤ c.toNat ∧ c.toNat ≤ 90 then Char.ofNat (c.toNat + 32) else c

/-- Substring containment on character lists. -/
def charsContains : List Char → List Char → Bool
  | hay, needle =>
    match hay with
    | [] => needle.isEmpty
    | _ :: t => needle.isPrefixOf hay || charsContains t needle

/-- SQL `s LIKE '%pat%'` for a wildcard-free `pat`: ASCII case-insensitive
substring containment. -/
def likeContains (s pat : String) : Bool :=
  charsContains (s.data.map lowerChar) (pat.data.map lowerChar)

/-- Binary (code-point) linear order on character lists, the SQLite default
text collation used by `ORDER BY`. -/
def charListLe : List Char → List Char → Prop
  | [], _ => True
  | _ :: _, [] => False
  | a :: as, b :: bs => a.toNat < b.toNat ∨ (a.toNat = b.toNat ∧ charListLe as bs)

instance : DecidableRel charListLe := fun a b => by
  induction a generalizing b with
  | nil => exact match b with | _ => by unfold charListLe; infer_instance
  | cons x xs ih =>
    match b with
    | [] => exact (by unfold charListLe; infer_instance)
    | y :: ys => exact (by unfold charListLe; have := ih ys; infer_instance)

/-- Text ordering on strings (SQLite `ORDER BY` on a text column). -/
def strLe (a b : String) : Prop := charListLe a.data b.data

instance : DecidableRel strLe := fun a b => by unfold strLe; infer_instance

/-! ### Generic list machinery for the SQL fragments used by the tools -/

/-- First-appearance deduplication (structural, kernel-computable); the order
in which a SQL `GROUP BY` hash grouping first meets each key. -/
def dedupAux {α : Type} [DecidableEq α] : List α → List α → List α
  | _, [] => []
  | seen, a :: as =>
    if a ∈ seen then dedupAux seen as else a :: dedupAux (a :: seen) as

/-- Distinct values of a list, keeping first occurrences. -/
def dedup {α : Type} [DecidableEq α] (l : List α) : List α := dedupAux [] l

/-- `SUM(f x)` over a row list (`0` over the empty list, as inside a larger
aggregate with `COALESCE`). -/
def sumBy {α : Type} (l : List α) (f : α → ℚ) : ℚ := (l.map f).sum

/-- SQL `SUM`/`MIN`/`MAX`-style aggregate: `NULL` (`none`) over zero rows. -/
def aggOpt {α β : Type} (l : List α) (f : List α → β) : Option β :=
  if l.isEmpty then none else some (f l)

/-- `COUNT(DISTINCT f x)` over a row list. -/
def countDistinct {α β : Type} [DecidableEq β] (l : List α) (f : α → β) : Nat :=
  (dedup (l.map f)).length

/-- `COUNT(DISTINCT f x)` skipping SQL `NULL`s. -/
def countDistinctSome {α β : Type} [DecidableEq β] (l : List α) (f : α → Option β) : Nat :=
  (dedup (l.filterMap f)).length

/-- Minimum under a decidable total preorder, as the head of the stable sort. -/
def minBy {α : Type} (le : α → α → Prop) [DecidableRel le] (l : List α) : Option α :=
  (List.insertionSort le l).head?

/-- Python `round(x, 2)` (round half to even at two decimal places). -/
def round2 (x : ℚ) : ℚ :=
  let m : ℚ := x * 100
  let f : ℤ := ⌊m⌋
  let r : ℚ := m - (f : ℚ)
  let n : ℤ :=
    if r < 1/2 then f
    else if 1/2 < r then f + 1
    else if f % 2 = 0 then f else f + 1
  (n : ℚ) / 100

end BizAdk

namespace BizAdk

/-! ### The store (`tallydb.db`) -/

/-- A row of `mst_ledger`. -/
structure Ledger where
  name : String
  al : String
  opening_balance : ℚ
  is_revenue : Option Nat
  is_deemedpositive : Nat
  parent : String
  description : String
deriving DecidableEq, Repr

/-- A row of `trn_voucher`. -/
structure Voucher where
  guid : Nat
  date : Date
  voucher_type : String
  voucher_number : Nat
  party_name : Option String
  narration : String
  reference_number : String
deriving DecidableEq, Repr

/-- A row of `trn_accounting`. -/
structure AccRow where
  guid : Nat
  ledger : String
  amount : ℚ
deriving DecidableEq, Repr

/-- A row of `trn_inventory`. -/
structure InvRow where
  guid : Nat
  item : String
  quantity : ℚ
  rate : ℚ
  amount : ℚ
  godown : String
deriving DecidableEq, Repr

/-- A row of `mst_stock_item`. -/
structure StockItem where
  name : String
  parent : String
  al : String
  part_number : String
  uom : String
  opening_balance : ℚ
  opening_rate : ℚ
  opening_value : ℚ
  gst_hsn_code : String
  gst_rate : ℚ
  gst_taxability : String
deriving DecidableEq, Repr

/-- The read-only accounting store. -/
structure DB where
  mst_ledger : List Ledger
  trn_voucher : List Voucher
  trn_accounting : List AccRow
  trn_inventory : List InvRow
  mst_stock_item : List StockItem
deriving DecidableEq, Repr

/-- A reachable store with no rows. -/
def emptyDB : DB := ⟨[], [], [], [], []⟩

/-- `execute_query`: every tool module catches data-access failures and
returns an empty row list, so an unreachable store (`none`) is observed by
callers as zero rows. -/
def runQ {α : Type} (store : Option DB) (f : DB → List α) : List α :=
  match store with
  | none => []
  | some db => f db

/-- `NULL`-padded row set of a `LEFT JOIN` match list. -/
def optRows {α : Type} (l : List α) : List (Option α) :=
  if l.isEmpty then [none] else l.map some

/-- `v LEFT JOIN trn_accounting a ON v.guid = a.guid`. -/
def leftJoinAcc (db : DB) (vs : List Voucher) : List (Voucher × Option AccRow) :=
  vs.flatMap fun v =>
    (optRows (db.trn_accounting.filter (fun a => a.guid == v.guid))).map fun a => (v, a)

/-- `v LEFT JOIN trn_accounting a ON v.guid = a.guid LEFT JOIN trn_inventory i
ON v.guid = i.guid`. -/
def leftJoin2 (db : DB) (vs : List Voucher) : List (Voucher × Option AccRow × Option InvRow) :=
  vs.flatMap fun v =>
    (optRows (db.trn_accounting.filter (fun a => a.guid == v.guid))).flatMap fun a =>
      (optRows (db.trn_inventory.filter (fun i => i.guid == v.guid))).map fun i => (v, a, i)

/-- `CASE WHEN a.amount > 0 THEN a.amount ELSE 0 END` on a `LEFT JOIN` row
(`NULL > 0` is not true, so the `ELSE` branch yields `0`). -/
def posAmt : Option AccRow → ℚ
  | some a => if 0 < a.amount then a.amount else 0
  | none => 0

/-- `CASE WHEN i.quantity > 0 THEN i.quantity ELSE 0 END` on a `LEFT JOIN` row. -/
def posQty : Option InvRow → ℚ
  | some i => if 0 < i.quantity then i.quantity else 0
  | none => 0

/-- `f"{x} to {y}"` where `x`, `y` are nullable date columns (`None` prints
as the Python string `"None"`). -/
def periodStr (lo hi : Option Date) : String :=
  (match lo with | none => "None" | some d => d.toStr) ++ " to " ++
  (match hi with | none => "None" | some d => d.toStr)

/-! ### Financial tools (`src/manager/sub_agents/financial/tools/tools.py`) -/

/-- The ledger rows matched by `WHERE l.name LIKE ? OR l.alias LIKE ?` with
pattern `%account_name%`, in table order (the query has no `ORDER BY`). -/
def matchingLedgers (db : DB) (account_name : String) : List Ledger :=
  db.mst_ledger.filter fun l =>
    likeContains l.name account_name || likeContains l.al account_name

/-- The accounting rows of one ledger, optionally restricted (via the inner
join with `trn_voucher`) to vouchers dated on or before `asOf`. -/
def entriesFor (db : DB) (name : String) (asOf : Option Date) : List AccRow :=
  db.trn_accounting.filter fun a =>
    a.ledger == name &&
      (match asOf with
       | none => true
       | some d => db.trn_voucher.any fun v => v.guid == a.guid && Date.leb v.date d)

/-- `COALESCE(SUM(CASE WHEN a.amount > 0 THEN a.amount ELSE 0 END), 0)`. -/
def creditsOf (db : DB) (name : String) (asOf : Option Date) : ℚ :=
  sumBy (entriesFor db name asOf) fun a => if 0 < a.amount then a.amount else 0

/-- `COALESCE(SUM(CASE WHEN a.amount < 0 THEN ABS(a.amount) ELSE 0 END), 0)`. -/
def debitsOf (db : DB) (name : String) (asOf : Option Date) : ℚ :=
  sumBy (entriesFor db name asOf) fun a => if a.amount < 0 then -a.amount else 0

/-- The closing-balance rule shared by `get_account_balance` and
`get_ledger_summary`. -/
def closingBalance (deemedpositive : Nat) (opening debits credits : ℚ) : ℚ :=
  if deemedpositive == 1 then opening + debits - credits
  else opening + credits - debits

/-- Result of `get_account_balance` (timestamp and clock-defaulted
`as_of_date` echo elided). -/
structure BalanceResult where
  status : String
  error_message : Option String := none
  account_name : Option String := none
  balance : Option ℚ := none
  opening_balance : Option ℚ := none
  total_credits : Option ℚ := none
  total_debits : Option ℚ := none
  currency : Option String := none
  as_of_date : Option String := none
  account_type : Option String := none
  description : Option String := none
deriving DecidableEq, Repr

/-- Main path of `get_account_balance` after date validation. -/
def getAccountBalanceGo (store : Option DB) (account_name : String)
    (as_of_echo : Option String) (asOf : Option Date) : BalanceResult × Nat :=
  match runQ store (matchingLedgers · account_name) with
  | [] =>
    ({ status := "error",
       error_message := some s!"Account \x27{account_name}\x27 not found" }, 1)
  | ledger :: _ =>
    let entries := runQ store (fun db => entriesFor db ledger.name asOf)
    let total_credits := sumBy entries fun a => if 0 < a.amount then a.amount else 0
    let total_debits := sumBy entries fun a => if a.amount < 0 then -a.amount else 0
    ({ status := "success",
       account_name := some ledger.name,
       balance := some (closingBalance ledger.is_deemedpositive ledger.opening_balance
         total_debits total_credits),
       opening_balance := some ledger.opening_balance,
       total_credits := some total_credits,
       total_debits := some total_debits,
       currency := some "INR",
       as_of_date := as_of_echo,
       account_type := some ledger.parent,
       description := some ledger.description }, 2)

/-- `get_account_balance`. -/
def getAccountBalance (store : Option DB) (account_name : String)
    (as_of_date : Option String) : BalanceResult × Nat :=
  match as_of_date with
  | some s =>
    match parseDate s with
    | none =>
      ({ status := "error",
         error_message := some s!"Invalid date format: {s}. Use YYYY-MM-DD format." }, 0)
    | some d => getAccountBalanceGo store account_name as_of_date (some d)
  | none => getAccountBalanceGo store account_name none none

end BizAdk

namespace BizAdk

/-- One entry of the `cash_flow_by_type` dictionary of `get_cash_flow`. -/
structure TypeFlow where
  voucher_type : String
  inflow : ℚ
  outflow : ℚ
  count : Nat
deriving DecidableEq, Repr

/-- Result of `get_cash_flow` (timestamp elided). -/
structure CashFlowResult where
  status : String
  error_message : Option String := none
  start_date : Option String := none
  end_date : Option String := none
  total_inflow : Option ℚ := none
  total_outflow : Option ℚ := none
  net_cash_flow : Option ℚ := none
  transaction_count : Option Nat := none
  cash_flow_by_type : List TypeFlow := []
  currency : Option String := none
deriving DecidableEq, Repr

/-- Rows of the cash-flow query: vouchers joined with accounting entries whose
ledger matches `%Cash%` or `%Bank%`, dated inside the window, ordered by date. -/
def cashFlowRows (db : DB) (s e : Date) : List (Voucher × AccRow) :=
  List.insertionSort (fun r r' => Date.leP r.1.date r'.1.date) <|
    db.trn_voucher.flatMap fun v =>
      (db.trn_accounting.filter fun a =>
        a.guid == v.guid && (likeContains a.ledger "Cash" || likeContains a.ledger "Bank")
          && Date.leb s v.date && Date.leb v.date e).map fun a => (v, a)

/-- `get_cash_flow`. -/
def getCashFlow (store : Option DB) (start_date end_date : String) :
    CashFlowResult × Nat :=
  match parseDate start_date, parseDate end_date with
  | some s, some e =>
    if Date.leP s e then
      let rows := runQ store (cashFlowRows · s e)
      if rows.isEmpty then
        ({ status := "no_data",
           error_message :=
             some s!"No cash transactions found for period {start_date} to {end_date}",
           start_date := some start_date, end_date := some end_date }, 1)
      else
        let types := dedup (rows.map fun r => r.1.voucher_type)
        ({ status := "success",
           start_date := some start_date, end_date := some end_date,
           total_inflow := some (sumBy rows fun r => if 0 < r.2.amount then r.2.amount else 0),
           total_outflow := some (sumBy rows fun r => if r.2.amount < 0 then -r.2.amount else 0),
           net_cash_flow := some ((sumBy rows fun r => if 0 < r.2.amount then r.2.amount else 0) -
             (sumBy rows fun r => if r.2.amount < 0 then -r.2.amount else 0)),
           transaction_count := some rows.length,
           cash_flow_by_type := types.map fun t =>
             let trs := rows.filter fun r => r.1.voucher_type == t
             { voucher_type := t,
               inflow := sumBy trs fun r => if 0 < r.2.amount then r.2.amount else 0,
               outflow := sumBy trs fun r => if r.2.amount < 0 then -r.2.amount else 0,
               count := trs.length },
           currency := some "INR" }, 1)
    else
      ({ status := "error",
         error_message := some "Start date cannot be after end date" }, 0)
  | _, _ =>
    ({ status := "error",
       error_message := some "Invalid date format. Use YYYY-MM-DD format." }, 0)

/-- One account line of the profit-and-loss statement. -/
structure PLAccount where
  account_name : String
  parent : String
  amount : ℚ
deriving DecidableEq, Repr

/-- Result of `get_profit_loss` (timestamp elided). -/
structure PLResult where
  status : String
  error_message : Option String := none
  start_date : Option String := none
  end_date : Option String := none
  total_income : Option ℚ := none
  total_expenses : Option ℚ := none
  net_profit : Option ℚ := none
  income_accounts : List PLAccount := []
  expense_accounts : List PLAccount := []
  currency : Option String := none
deriving DecidableEq, Repr

/-- Join rows of the P&L query: accounting entries with their ledger master row
(`is_revenue IS NOT NULL`) and a voucher inside the window. -/
def plRows (db : DB) (s e : Date) : List (AccRow × Ledger × Voucher) :=
  db.trn_accounting.flatMap fun a =>
    (db.mst_ledger.filter fun l => l.name == a.ledger && l.is_revenue.isSome).flatMap fun l =>
      (db.trn_voucher.filter fun v =>
        v.guid == a.guid && Date.leb s v.date && Date.leb v.date e).map fun v => (a, l, v)

/-- `ORDER BY l.is_revenue DESC, a.ledger` on the P&L group keys
`(ledger name, is_revenue, parent)`. -/
def plKeyLe (k k' : String × Nat × String) : Prop :=
  k'.2.1 < k.2.1 ∨ (k.2.1 = k'.2.1 ∧ strLe k.1 k'.1)

instance : DecidableRel plKeyLe := fun a b => by unfold plKeyLe; infer_instance

/-- The grouped and ordered P&L rows: one `(key, net_amount)` line per distinct
`(ledger, is_revenue, parent)` key. -/
def plGrouped (db : DB) (s e : Date) : List ((String × Nat × String) × ℚ) :=
  let rows := plRows db s e
  let keys := dedup (rows.map fun r => (r.1.ledger, r.2.1.is_revenue.getD 0, r.2.1.parent))
  (List.insertionSort plKeyLe keys).map fun k =>
    (k, sumBy (rows.filter fun r =>
      (r.1.ledger, r.2.1.is_revenue.getD 0, r.2.1.parent) == k) fun r => r.1.amount)

/-- `get_profit_loss`. -/
def getProfitLoss (store : Option DB) (start_date end_date : String) : PLResult × Nat :=
  match parseDate start_date, parseDate end_date with
  | some s, some e =>
    if Date.leP s e then
      let grouped := runQ store (fun db => plGrouped db s e)
      if grouped.isEmpty then
        ({ status := "no_data",
           error_message := some s!"No P&L data found for period {start_date} to {end_date}",
           start_date := some start_date, end_date := some end_date }, 1)
      else
        let income := grouped.filter fun g => g.1.2.1 == 1
        let expense := grouped.filter fun g => !(g.1.2.1 == 1)
        let mk : ((String × Nat × String) × ℚ) → PLAccount := fun g =>
          { account_name := g.1.1, parent := g.1.2.2, amount := |g.2| }
        ({ status := "success",
           start_date := some start_date, end_date := some end_date,
           total_income := some (sumBy income fun g => |g.2|),
           total_expenses := some (sumBy expense fun g => |g.2|),
           net_profit := some ((sumBy income fun g => |g.2|) - (sumBy expense fun g => |g.2|)),
           income_accounts := income.map mk,
           expense_accounts := expense.map mk,
           currency := some "INR" }, 1)
    else
      ({ status := "error",
         error_message := some "Start date cannot be after end date" }, 0)
  | _, _ =>
    ({ status := "error",
       error_message := some "Invalid date format. Use YYYY-MM-DD format." }, 0)

/-- One account of the `get_ledger_summary` payload. -/
structure LedgerAccountInfo where
  account_name : String
  balance : ℚ
  opening_balance : ℚ
  parent : String
  description : String
  account_nature : String
  is_revenue : Bool
deriving DecidableEq, Repr

/-- Result of `get_ledger_summary` (timestamp elided). -/
structure LedgerSummaryResult where
  status : String
  error_message : Option String := none
  accounts : List LedgerAccountInfo := []
  total_accounts : Option Nat := none
  total_balance : Option ℚ := none
  currency : Option String := none
deriving DecidableEq, Repr

/-- Grouped rows of the ledger-summary query: each `mst_ledger` row (ledger
names are the primary key of the Tally schema, so the `GROUP BY` over all its
columns keeps one group per row) with its total credits and debits from the
`LEFT JOIN` against `trn_accounting`. -/
def ledgerSummaryRows (db : DB) (account_type : Option String) : List (Ledger × ℚ × ℚ) :=
  (db.mst_ledger.filter fun l =>
    match account_type with
    | none => true
    | some t => likeContains l.parent t).map fun l =>
      (l, creditsOf db l.name none, debitsOf db l.name none)

/-- `get_ledger_summary`. -/
def getLedgerSummary (store : Option DB) (account_type : Option String)
    (include_zero_balance : Bool) : LedgerSummaryResult × Nat :=
  let results := runQ store (ledgerSummaryRows · account_type)
  if results.isEmpty then
    ({ status := "no_data", error_message := some "No ledger accounts found" }, 1)
  else
    let kept := results.filter fun r =>
      let closing := closingBalance r.1.is_deemedpositive r.1.opening_balance r.2.2 r.2.1
      !(!include_zero_balance && closing == 0 && r.1.opening_balance == 0)
    let accounts := kept.map fun r =>
      { account_name := r.1.name,
        balance := closingBalance r.1.is_deemedpositive r.1.opening_balance r.2.2 r.2.1,
        opening_balance := r.1.opening_balance,
        parent := r.1.parent,
        description := r.1.description,
        account_nature := if r.1.is_deemedpositive == 1 then "Debit" else "Credit",
        is_revenue := !(r.1.is_revenue.getD 0 == 0) : LedgerAccountInfo }
    ({ status := "success",
       accounts := accounts,
       total_accounts := some accounts.length,
       total_balance := some (sumBy kept fun r =>
         closingBalance r.1.is_deemedpositive r.1.opening_balance r.2.2 r.2.1),
       currency := some "INR" }, 1)

end BizAdk

namespace BizAdk

/-- Strict lexicographic order on dates. -/
def Date.ltP (a b : Date) : Prop :=
  a.y < b.y ∨ (a.y = b.y ∧ (a.m < b.m ∨ (a.m = b.m ∧ a.d < b.d)))

instance : DecidableRel Date.ltP := fun a b => by unfold Date.ltP; infer_instance

/-- A grouped payment/receipt transaction row: the `GROUP BY` key of the
payment/receipt queries together with `SUM(ABS(a.amount))`. -/
structure TxnRow where
  voucher_number : Nat
  voucher_type : String
  date : Date
  party_name : Option String
  narration : String
  reference_number : String
  total_amount : ℚ
deriving DecidableEq, Repr

/-- The `GROUP BY` key of a joined voucher/accounting row. -/
def txnKey (v : Voucher) : Nat × String × Date × Option String × String × String :=
  (v.voucher_number, v.voucher_type, v.date, v.party_name, v.narration, v.reference_number)

/-- `trn_voucher` inner-joined with `trn_accounting`, restricted to vouchers
satisfying `keep`, grouped by the six header columns with `SUM(ABS(a.amount))`. -/
def txnRows (db : DB) (keep : Voucher → Bool) : List TxnRow :=
  let rows := db.trn_voucher.flatMap fun v =>
    if keep v then (db.trn_accounting.filter fun a => a.guid == v.guid).map fun a => (v, a)
    else []
  (dedup (rows.map fun r => txnKey r.1)).map fun k =>
    { voucher_number := k.1, voucher_type := k.2.1, date := k.2.2.1,
      party_name := k.2.2.2.1, narration := k.2.2.2.2.1,
      reference_number := k.2.2.2.2.2,
      total_amount := sumBy (rows.filter fun r => txnKey r.1 == k) fun r => |r.2.amount| }

/-- `ORDER BY v.date DESC, v.voucher_number DESC`. -/
def txnGe (a b : TxnRow) : Prop :=
  Date.ltP b.date a.date ∨ (a.date = b.date ∧ b.voucher_number ≤ a.voucher_number)

instance : DecidableRel txnGe := fun a b => by unfold txnGe; infer_instance

/-- The voucher-type filter of the payment/receipt tools. -/
def vtypeFilter (transaction_type : String) (t : String) : Bool :=
  if transaction_type == "payment" then likeContains t "Payment"
  else if transaction_type == "receipt" then likeContains t "Receipt"
  else likeContains t "Payment" || likeContains t "Receipt"

/-- The optional `v.party_name LIKE ?` filter (a SQL `NULL` never matches). -/
def partyFilter (party_name : Option String) (p : Option String) : Bool :=
  match party_name with
  | none => true
  | some pat => match p with
    | none => false
    | some s => likeContains s pat

/-- Result of `get_payment_receipts` (timestamp elided). -/
structure PRResult where
  status : String
  error_message : Option String := none
  transaction_type : Option String := none
  start_date : Option String := none
  end_date : Option String := none
  transactions : List TxnRow := []
  total_amount : Option ℚ := none
  transaction_count : Option Nat := none
  currency : Option String := none
  note : Option String := none
deriving DecidableEq, Repr

/-- The payment/receipt query: type/window/party filter, grouped, ordered
newest first, with the `LIMIT` clause added only for a truthy Python `limit`
(a zero limit is falsy, so no `LIMIT` is emitted). -/
def prQuery (ttype : String) (s e : Date) (party_name : Option String)
    (limit : Option Nat) (db : DB) : List TxnRow :=
  let sorted := List.insertionSort txnGe (txnRows db fun v =>
    vtypeFilter ttype v.voucher_type &&
      Date.leb s v.date && Date.leb v.date e && partyFilter party_name v.party_name)
  match limit with
  | some (n + 1) => sorted.take (n + 1)
  | _ => sorted

/-- Main path of `get_payment_receipts` once the effective window is fixed;
`sd`/`ed` are the strings echoed back to the caller. -/
def getPaymentReceiptsGo (store : Option DB) (transaction_type : String)
    (s e : Date) (sd ed : String) (party_name : Option String)
    (limit : Option Nat) : PRResult × Nat :=
  let results := runQ store (prQuery transaction_type s e party_name limit)
  if results.isEmpty then
    ({ status := "no_data",
       error_message :=
         some s!"No {transaction_type} transactions found for period {sd} to {ed}",
       transaction_type := some transaction_type,
       start_date := some sd, end_date := some ed }, 1)
  else
    ({ status := "success",
       transaction_type := some transaction_type,
       start_date := some sd, end_date := some ed,
       transactions := results,
       total_amount := some (sumBy results fun t => t.total_amount),
       transaction_count := some results.length,
       currency := some "INR",
       note := some ((match limit with
         | some (n + 1) => s!"Latest {n + 1} "
         | _ => "All ") ++ s!"transactions from {sd} to {ed}") }, 1)

/-- `get_payment_receipts`; `today` stands for `datetime.now()`. -/
def getPaymentReceipts (today : Date) (store : Option DB) (transaction_type : String)
    (start_date end_date : Option String) (party_name : Option String)
    (limit : Option Nat) : PRResult × Nat :=
  if !(transaction_type == "payment" || transaction_type == "receipt"
      || transaction_type == "both") then
    ({ status := "error",
       error_message :=
         some "Transaction type must be \x27payment\x27, \x27receipt\x27, or \x27both\x27" }, 0)
  else
    match start_date, end_date with
    | some sd, some ed =>
      match parseDate sd, parseDate ed with
      | some s, some e =>
        if Date.leP s e then
          getPaymentReceiptsGo store transaction_type s e sd ed party_name limit
        else
          ({ status := "error",
             error_message := some "Start date cannot be after end date" }, 0)
      | _, _ =>
        ({ status := "error",
           error_message := some "Invalid date format. Use YYYY-MM-DD format." }, 0)
    | _, _ =>
      -- default window: last 180 days ending today
      let s := today.subDays 180
      getPaymentReceiptsGo store transaction_type s today s.toStr today.toStr
        party_name limit

/-- Result of `get_latest_transactions` (timestamp elided). -/
structure LTResult where
  status : String
  error_message : Option String := none
  transaction_type : Option String := none
  transactions : List TxnRow := []
  total_amount : Option ℚ := none
  transaction_count : Option Nat := none
  date_range : Option String := none
  currency : Option String := none
  note : Option String := none
deriving DecidableEq, Repr

/-- The latest-transactions query: no date filter, newest first, `LIMIT`ed. -/
def ltQuery (ttype : String) (party_name : Option String) (limit : Nat)
    (db : DB) : List TxnRow :=
  (List.insertionSort txnGe (txnRows db fun v =>
    vtypeFilter ttype v.voucher_type && partyFilter party_name v.party_name)).take limit

/-- `get_latest_transactions`. -/
def getLatestTransactions (store : Option DB) (transaction_type : String)
    (limit : Nat) (party_name : Option String) : LTResult × Nat :=
  if !(transaction_type == "payment" || transaction_type == "receipt"
      || transaction_type == "both") then
    ({ status := "error",
       error_message :=
         some "Transaction type must be \x27payment\x27, \x27receipt\x27, or \x27both\x27" }, 0)
  else
    let results := runQ store (ltQuery transaction_type party_name limit)
    if results.isEmpty then
      ({ status := "no_data",
         error_message := some s!"No {transaction_type} transactions found",
         transaction_type := some transaction_type }, 1)
    else
      let latest := (results.head?.map fun t => t.date.toStr).getD "N/A"
      let oldest := (results.getLast?.map fun t => t.date.toStr).getD "N/A"
      ({ status := "success",
         transaction_type := some transaction_type,
         transactions := results,
         total_amount := some (sumBy results fun t => t.total_amount),
         transaction_count := some results.length,
         date_range := some (oldest ++ " to " ++ latest),
         currency := some "INR",
         note := some s!"Latest {limit} {transaction_type} transactions from the database" }, 1)

end BizAdk

namespace BizAdk

/-! ### Inventory tools (`src/manager/sub_agents/inventory/tools/tools.py`) -/

/-- A row of the item transaction-history query of `get_item_details`. -/
structure ItemTxn where
  quantity : ℚ
  rate : ℚ
  amount : ℚ
  godown : String
  date : Date
  voucher_type : String
  voucher_number : Nat
  party_name : Option String
deriving DecidableEq, Repr

/-- A per-godown stock line of `get_item_details`. -/
structure GodownStock where
  godown : String
  current_stock : ℚ
  avg_rate : ℚ
deriving DecidableEq, Repr

/-- Result of `get_item_details` (timestamp elided). -/
structure ItemDetailsResult where
  status : String
  error_message : Option String := none
  item_master : Option StockItem := none
  current_stock : List GodownStock := []
  recent_transactions : List ItemTxn := []
deriving DecidableEq, Repr

/-- The stock-item rows matched by `WHERE name LIKE ?` with pattern
`%item_name%`, in table order (the query has no `ORDER BY`). -/
def matchingItems (db : DB) (item_name : String) : List StockItem :=
  db.mst_stock_item.filter fun i => likeContains i.name item_name

/-- Transaction history of `get_item_details`: inventory rows whose item
matches the pattern, joined with their voucher, newest first, limited to 10. -/
def itemHistory (db : DB) (item_name : String) : List ItemTxn :=
  (List.insertionSort (fun a b : ItemTxn => Date.leP b.date a.date)
    (db.trn_inventory.flatMap fun i =>
      if likeContains i.item item_name then
        (db.trn_voucher.filter fun v => v.guid == i.guid).map fun v =>
          { quantity := i.quantity, rate := i.rate, amount := i.amount,
            godown := i.godown, date := v.date, voucher_type := v.voucher_type,
            voucher_number := v.voucher_number, party_name := v.party_name }
      else [])).take 10

/-- Per-godown stock of `get_item_details`: `SUM(i.quantity)` and
`AVG(i.rate)` grouped by godown over the matching inventory rows. -/
def itemStockByGodown (db : DB) (item_name : String) : List GodownStock :=
  let rows := db.trn_inventory.filter fun i => likeContains i.item item_name
  (dedup (rows.map fun i => i.godown)).map fun g =>
    let grs := rows.filter fun i => i.godown == g
    { godown := g,
      current_stock := sumBy grs fun i => i.quantity,
      avg_rate := sumBy grs (fun i => i.rate) / grs.length }

/-- `get_item_details`. -/
def getItemDetails (store : Option DB) (item_name : String) : ItemDetailsResult × Nat :=
  match runQ store (matchingItems · item_name) with
  | [] =>
    ({ status := "error",
       error_message := some s!"Item \x27{item_name}\x27 not found" }, 1)
  | item :: _ =>
    ({ status := "success",
       item_master := some item,
       current_stock := runQ store (itemStockByGodown · item_name),
       recent_transactions := runQ store (itemHistory · item_name) }, 3)

/-- One stock movement row of `get_stock_movements`. -/
structure Movement where
  date : Date
  item : String
  godown : String
  quantity : ℚ
  rate : ℚ
  amount : ℚ
  voucher_type : String
  voucher_number : Nat
  party_name : Option String
  movement_type : String
deriving DecidableEq, Repr

/-- Result of `get_stock_movements` (timestamp elided). -/
structure MovementsResult where
  status : String
  error_message : Option String := none
  start_date : Option String := none
  end_date : Option String := none
  movements : List Movement := []
  total_movements : Option Nat := none
  total_in : Option ℚ := none
  total_out : Option ℚ := none
  net_movement : Option ℚ := none
deriving DecidableEq, Repr

/-- `ORDER BY v.date DESC, i.item` on movement rows. -/
def movementLe (a b : Movement) : Prop :=
  Date.ltP b.date a.date ∨ (a.date = b.date ∧ strLe a.item b.item)

instance : DecidableRel movementLe := fun a b => by unfold movementLe; infer_instance

/-- Rows of the stock-movement query, tagged `IN`/`OUT`/`NEUTRAL` by the sign
of the quantity. -/
def movementRows (db : DB) (s e : Date) (item_name : Option String) : List Movement :=
  List.insertionSort movementLe <|
    db.trn_inventory.flatMap fun i =>
      if (match item_name with | none => true | some pat => likeContains i.item pat) then
        (db.trn_voucher.filter fun v =>
          v.guid == i.guid && Date.leb s v.date && Date.leb v.date e).map fun v =>
          { date := v.date, item := i.item, godown := i.godown,
            quantity := i.quantity, rate := i.rate, amount := i.amount,
            voucher_type := v.voucher_type, voucher_number := v.voucher_number,
            party_name := v.party_name,
            movement_type :=
              if 0 < i.quantity then "IN"
              else if i.quantity < 0 then "OUT" else "NEUTRAL" }
      else []

/-- `get_stock_movements`. -/
def getStockMovements (store : Option DB) (start_date end_date : String)
    (item_name : Option String) : MovementsResult × Nat :=
  match parseDate start_date, parseDate end_date with
  | some s, some e =>
    if Date.leP s e then
      let movements := runQ store (movementRows · s e item_name)
      if movements.isEmpty then
        ({ status := "no_data",
           error_message :=
             some s!"No stock movements found for period {start_date} to {end_date}",
           start_date := some start_date, end_date := some end_date }, 1)
      else
        let tin := sumBy (movements.filter fun m => m.movement_type == "IN")
          fun m => |m.quantity|
        let tout := sumBy (movements.filter fun m => m.movement_type == "OUT")
          fun m => |m.quantity|
        ({ status := "success",
           start_date := some start_date, end_date := some end_date,
           movements := movements,
           total_movements := some movements.length,
           total_in := some tin, total_out := some tout,
           net_movement := some (tin - tout) }, 1)
    else
      ({ status := "error",
         error_message := some "Start date cannot be after end date" }, 0)
  | _, _ =>
    ({ status := "error",
       error_message := some "Invalid date format. Use YYYY-MM-DD format." }, 0)

/-- The observed behavior of SQLite's `ORDER BY <metric> DESC` on the
ranking queries: rows with equal sort keys are emitted in the reverse of
their enumeration order, modelled as a stable sort of the reversed input. -/
def sqlSortDesc {α : Type} (r : α → α → Prop) [DecidableRel r] (l : List α) : List α :=
  List.insertionSort r l.reverse

/-- Per-item aggregate of the `get_top_items` query. -/
structure ItemAgg where
  item : String
  total_quantity : ℚ
  avg_rate : ℚ
  total_value : ℚ
  transaction_count : Nat
  godown_count : Nat
deriving DecidableEq, Repr

/-- One payload row of `get_top_items`. -/
structure TopItem where
  item_name : String
  total_quantity : ℚ
  avg_rate : ℚ
  total_value : ℚ
  transaction_count : Nat
  godown_count : Nat
  locations : String
deriving DecidableEq, Repr

/-- Result of `get_top_items` (timestamp elided). -/
structure TopItemsResult where
  status : String
  error_message : Option String := none
  top_items : List TopItem := []
  limit : Option Nat := none
  sorted_by : Option String := none
  total_value : Option ℚ := none
  currency : Option String := none
deriving DecidableEq, Repr

/-- `GROUP BY i.item` aggregates over `trn_inventory`, in key-ascending
order of the item names (SQLite's sorting `GROUP BY`). -/
def itemAggs (db : DB) : List ItemAgg :=
  let rows := db.trn_inventory
  (List.insertionSort strLe (dedup (rows.map fun i => i.item))).map fun it =>
    let grs := rows.filter fun i => i.item == it
    { item := it,
      total_quantity := sumBy grs fun i => |i.quantity|,
      avg_rate := sumBy grs (fun i => i.rate) / grs.length,
      total_value := sumBy grs fun i => |i.amount|,
      transaction_count := grs.length,
      godown_count := countDistinct grs fun i => i.godown }

/-- `ORDER BY total_value DESC` / `ORDER BY total_quantity DESC` — the query
orders by the chosen metric only, with no tie-break column. -/
def itemAggGe (by_value : Bool) (a b : ItemAgg) : Prop :=
  if by_value then b.total_value ≤ a.total_value
  else b.total_quantity ≤ a.total_quantity

instance (bv : Bool) : DecidableRel (itemAggGe bv) := fun a b => by
  unfold itemAggGe; infer_instance

/-- `get_top_items`. -/
def getTopItems (store : Option DB) (limit : Nat) (by_value : Bool) :
    TopItemsResult × Nat :=
  let results := runQ store fun db =>
    (sqlSortDesc (itemAggGe by_value) (itemAggs db)).take limit
  if results.isEmpty then
    ({ status := "no_data", error_message := some "No item data found" }, 1)
  else
    let top_items := results.map fun r =>
      { item_name := r.item, total_quantity := r.total_quantity,
        avg_rate := r.avg_rate, total_value := r.total_value,
        transaction_count := r.transaction_count, godown_count := r.godown_count,
        locations := if 1 < r.godown_count then "Multiple" else "Single" : TopItem }
    ({ status := "success",
       top_items := top_items,
       limit := some limit,
       sorted_by := some (if by_value then "value" else "quantity"),
       total_value := some (sumBy top_items fun t => t.total_value),
       currency := some "INR" }, 1)

end BizAdk

namespace BizAdk

/-! ### Sales tools (`src/manager/sub_agents/sales/tools/tools.py`).
These build their `WHERE` clauses by raw string interpolation and perform no
date validation; date comparisons are SQLite text comparisons. -/

/-- `MIN` under a boolean order (`none` on the empty list). -/
def listMin {α : Type} (le : α → α → Bool) : List α → Option α
  | [] => none
  | a :: as => some (as.foldl (fun acc x => if le x acc then x else acc) a)

/-- `MAX` under a boolean order (`none` on the empty list). -/
def listMax {α : Type} (le : α → α → Bool) : List α → Option α
  | [] => none
  | a :: as => some (as.foldl (fun acc x => if le acc x then x else acc) a)

/-- The interpolated `WHERE` filter of `get_sales_summary` (and, with the
party pattern read as supplier, of `get_purchase_summary`): text-comparison
date bounds, `party_name LIKE`, exact `voucher_type`. -/
def salesWhere (date_from date_to customer voucher_type : Option String)
    (v : Voucher) : Bool :=
  (match date_from with | none => true | some s => decide (strLe s v.date.toStr)) &&
  (match date_to with | none => true | some s => decide (strLe v.date.toStr s)) &&
  (match customer with
   | none => true
   | some c => match v.party_name with | none => false | some p => likeContains p c) &&
  (match voucher_type with | none => true | some t => v.voucher_type == t)

/-- The single row of the aggregate-only sales-summary `SELECT`. -/
structure SalesAgg where
  total_transactions : Nat
  unique_customers : Nat
  total_revenue : Option ℚ
  avg_transaction_value : Option ℚ
  earliest_date : Option Date
  latest_date : Option Date
  voucher_types : Nat
deriving DecidableEq, Repr

/-- The sales-summary query: one aggregate row over the `LEFT JOIN` of the
filtered vouchers with their accounting entries.  An aggregate-only `SELECT`
with no `GROUP BY` always returns exactly one row. -/
def salesSummaryQuery (date_from date_to customer voucher_type : Option String)
    (db : DB) : List SalesAgg :=
  let rows := leftJoinAcc db
    (db.trn_voucher.filter (salesWhere date_from date_to customer voucher_type))
  [{ total_transactions := countDistinct rows fun r => r.1.voucher_number,
     unique_customers := countDistinctSome rows fun r => r.1.party_name,
     total_revenue := aggOpt rows fun rs => sumBy rs fun r => posAmt r.2,
     avg_transaction_value :=
       aggOpt rows fun rs => sumBy rs (fun r => posAmt r.2) / rs.length,
     earliest_date := listMin Date.leb (rows.map fun r => r.1.date),
     latest_date := listMax Date.leb (rows.map fun r => r.1.date),
     voucher_types := countDistinct rows fun r => r.1.voucher_type }]

/-- Result of `get_sales_summary` (the `filters_applied` echo is flattened
into `filters_*` fields). -/
structure SalesSummaryResult where
  status : String
  message : Option String := none
  total_transactions : Option Nat := none
  unique_customers : Option Nat := none
  total_revenue : Option ℚ := none
  avg_transaction_value : Option ℚ := none
  period : Option String := none
  voucher_types : Option Nat := none
  filters_date_from : Option String := none
  filters_date_to : Option String := none
  filters_customer : Option String := none
  filters_voucher_type : Option String := none
deriving DecidableEq, Repr

/-- `get_sales_summary`. -/
def getSalesSummary (store : Option DB)
    (date_from date_to customer voucher_type : Option String) :
    SalesSummaryResult × Nat :=
  match runQ store (salesSummaryQuery date_from date_to customer voucher_type) with
  | [] => ({ status := "error", message := some "No sales data found" }, 1)
  | row :: _ =>
    ({ status := "success",
       total_transactions := some row.total_transactions,
       unique_customers := some row.unique_customers,
       total_revenue := some (round2 (row.total_revenue.getD 0)),
       avg_transaction_value := some (round2 (row.avg_transaction_value.getD 0)),
       period := some (periodStr row.earliest_date row.latest_date),
       voucher_types := some row.voucher_types,
       filters_date_from := date_from, filters_date_to := date_to,
       filters_customer := customer, filters_voucher_type := voucher_type }, 1)

/-- The `strftime`/`DATE` period key of the revenue/procurement analyses:
`DATE(v.date)` for daily, `%Y-%W` for weekly, `%Y-%m` for monthly and for any
unrecognized period parameter. -/
def dateKey (period : String) (d : Date) : String :=
  if period == "daily" then d.toStr
  else if period == "weekly" then keyYW d
  else keyYm d

/-- One period row of `get_revenue_analysis`. -/
structure RAPeriod where
  period : String
  transaction_count : Nat
  revenue : ℚ
  avg_transaction_value : ℚ
  unique_customers : Nat
deriving DecidableEq, Repr

/-- Result of `get_revenue_analysis`. -/
structure RevenueAnalysisResult where
  status : String
  message : Option String := none
  revenue_analysis : List RAPeriod := []
  period_type : Option String := none
  total_periods : Option Nat := none
deriving DecidableEq, Repr

/-- The grouped revenue-analysis query: date-filtered vouchers left-joined
with accounting entries, grouped by period key, ordered by key. -/
def revenueAnalysisQuery (period : String) (date_from date_to : Option String)
    (db : DB) : List RAPeriod :=
  let rows := leftJoinAcc db
    (db.trn_voucher.filter (salesWhere date_from date_to none none))
  let keys := List.insertionSort strLe (dedup (rows.map fun r => dateKey period r.1.date))
  keys.map fun k =>
    let grs := rows.filter fun r => dateKey period r.1.date == k
    { period := k,
      transaction_count := countDistinct grs fun r => r.1.voucher_number,
      revenue := round2 (sumBy grs fun r => posAmt r.2),
      avg_transaction_value := round2 (sumBy grs (fun r => posAmt r.2) / grs.length),
      unique_customers := countDistinctSome grs fun r => r.1.party_name }

/-- `get_revenue_analysis` (the unused `group_by` parameter is omitted). -/
def getRevenueAnalysis (store : Option DB) (period : String)
    (date_from date_to : Option String) : RevenueAnalysisResult × Nat :=
  match runQ store (revenueAnalysisQuery period date_from date_to) with
  | [] => ({ status := "error", message := some "No revenue data found" }, 1)
  | r :: rs =>
    ({ status := "success",
       revenue_analysis := r :: rs,
       period_type := some period,
       total_periods := some (r :: rs).length }, 1)

/-- Per-customer aggregate of the `get_top_customers` query (over the double
`LEFT JOIN` with both accounting and inventory rows). -/
structure CustAgg where
  party_name : String
  transaction_count : Nat
  total_revenue : ℚ
  total_quantity : ℚ
  avg_transaction_value : ℚ
deriving DecidableEq, Repr

/-- `ORDER BY <metric> DESC` of `get_top_customers` — no tie-break column. -/
def custGe (metric : String) (a b : CustAgg) : Prop :=
  if metric == "transactions" then b.transaction_count ≤ a.transaction_count
  else if metric == "quantity" then b.total_quantity ≤ a.total_quantity
  else b.total_revenue ≤ a.total_revenue

instance (m : String) : DecidableRel (custGe m) := fun a b => by
  unfold custGe; infer_instance

/-- The per-party groups of `get_top_customers`.  SQLite has no hash
aggregation: `GROUP BY v.party_name` enumerates the groups in key-ascending
order, so the distinct party names are sorted before the groups are built. -/
def custAggs (date_from date_to : Option String) (db : DB) : List CustAgg :=
  let rows := leftJoin2 db (db.trn_voucher.filter fun v =>
    v.party_name.isSome && salesWhere date_from date_to none none v)
  (List.insertionSort strLe (dedup (rows.filterMap fun r => r.1.party_name))).map fun p =>
    let grs := rows.filter fun r => r.1.party_name == some p
    { party_name := p,
      transaction_count := countDistinct grs fun r => r.1.voucher_number,
      total_revenue := sumBy grs fun r => posAmt r.2.1,
      total_quantity := sumBy grs fun r => posQty r.2.2,
      avg_transaction_value := sumBy grs (fun r => posAmt r.2.1) / grs.length }

/-- One payload row of `get_top_customers`. -/
structure TopCustomer where
  customer_name : String
  transaction_count : Nat
  total_revenue : ℚ
  total_quantity : ℚ
  avg_transaction_value : ℚ
deriving DecidableEq, Repr

/-- Result of `get_top_customers`. -/
structure TopCustomersResult where
  status : String
  message : Option String := none
  top_customers : List TopCustomer := []
  metric : Option String := none
  limit : Option Nat := none
  count : Option Nat := none
deriving DecidableEq, Repr

/-- `get_top_customers`. -/
def getTopCustomers (store : Option DB) (metric : String) (limit : Nat)
    (date_from date_to : Option String) : TopCustomersResult × Nat :=
  let results := runQ store fun db =>
    (sqlSortDesc (custGe metric) (custAggs date_from date_to db)).take limit
  if results.isEmpty then
    ({ status := "error", message := some "No customer data found" }, 1)
  else
    ({ status := "success",
       top_customers := results.map fun r =>
         { customer_name := r.party_name,
           transaction_count := r.transaction_count,
           total_revenue := round2 r.total_revenue,
           total_quantity := round2 r.total_quantity,
           avg_transaction_value := round2 r.avg_transaction_value },
       metric := some metric,
       limit := some limit,
       count := some results.length }, 1)

end BizAdk

namespace BizAdk

/-! ### Purchase tools (`src/manager/sub_agents/purchase/tools/tools.py`) -/

/-- The purchase-voucher disjunction of `get_purchase_summary`:
`v.voucher_type LIKE '%purchase%' OR ... OR a.amount > 0`, evaluated on a
`LEFT JOIN` row (a `NULL` accounting side fails the amount test). -/
def purchaseRowOk (r : Voucher × Option AccRow) : Bool :=
  likeContains r.1.voucher_type "purchase" || likeContains r.1.voucher_type "Purchase"
    || likeContains r.1.voucher_type "Bill" || likeContains r.1.voucher_type "procurement"
    || (match r.2 with | some a => decide (0 < a.amount) | none => false)

/-- The purchase-summary query: one aggregate row, like the sales summary but
with the purchase-voucher disjunction applied to the joined rows. -/
def purchaseSummaryQuery (date_from date_to supplier voucher_type : Option String)
    (db : DB) : List SalesAgg :=
  let rows := (leftJoinAcc db
    (db.trn_voucher.filter (salesWhere date_from date_to supplier voucher_type))).filter
      purchaseRowOk
  [{ total_transactions := countDistinct rows fun r => r.1.voucher_number,
     unique_customers := countDistinctSome rows fun r => r.1.party_name,
     total_revenue := aggOpt rows fun rs => sumBy rs fun r => posAmt r.2,
     avg_transaction_value :=
       aggOpt rows fun rs => sumBy rs (fun r => posAmt r.2) / rs.length,
     earliest_date := listMin Date.leb (rows.map fun r => r.1.date),
     latest_date := listMax Date.leb (rows.map fun r => r.1.date),
     voucher_types := countDistinct rows fun r => r.1.voucher_type }]

/-- Result of `get_purchase_summary` (field names follow the Python payload:
`unique_suppliers` and `total_purchase_cost` in place of the sales names). -/
structure PurchaseSummaryResult where
  status : String
  message : Option String := none
  total_transactions : Option Nat := none
  unique_suppliers : Option Nat := none
  total_purchase_cost : Option ℚ := none
  avg_transaction_value : Option ℚ := none
  period : Option String := none
  voucher_types : Option Nat := none
  filters_date_from : Option String := none
  filters_date_to : Option String := none
  filters_supplier : Option String := none
  filters_voucher_type : Option String := none
deriving DecidableEq, Repr

/-- `get_purchase_summary`. -/
def getPurchaseSummary (store : Option DB)
    (date_from date_to supplier voucher_type : Option String) :
    PurchaseSummaryResult × Nat :=
  match runQ store (purchaseSummaryQuery date_from date_to supplier voucher_type) with
  | [] => ({ status := "error", message := some "No purchase data found" }, 1)
  | row :: _ =>
    ({ status := "success",
       total_transactions := some row.total_transactions,
       unique_suppliers := some row.unique_customers,
       total_purchase_cost := some (round2 (row.total_revenue.getD 0)),
       avg_transaction_value := some (round2 (row.avg_transaction_value.getD 0)),
       period := some (periodStr row.earliest_date row.latest_date),
       voucher_types := some row.voucher_types,
       filters_date_from := date_from, filters_date_to := date_to,
       filters_supplier := supplier, filters_voucher_type := voucher_type }, 1)

/-- One period row of `get_procurement_analysis`. -/
structure ProcPeriod where
  period : String
  transaction_count : Nat
  total_spending : ℚ
  avg_transaction_value : ℚ
  unique_suppliers : Nat
  unique_items : Nat
deriving DecidableEq, Repr

/-- Result of `get_procurement_analysis`. -/
structure ProcurementAnalysisResult where
  status : String
  message : Option String := none
  procurement_analysis : List ProcPeriod := []
  period_type : Option String := none
  total_periods : Option Nat := none
deriving DecidableEq, Repr

/-- The grouped procurement-analysis query: the double `LEFT JOIN` filtered by
`a.amount > 0`, the date bounds and the optional `i.item LIKE` category,
grouped by period key, ordered by key. -/
def procurementAnalysisQuery (period : String)
    (date_from date_to category : Option String) (db : DB) : List ProcPeriod :=
  let rows := (leftJoin2 db db.trn_voucher).filter fun r =>
    (match r.2.1 with | some a => decide (0 < a.amount) | none => false) &&
    salesWhere date_from date_to none none r.1 &&
    (match category with
     | none => true
     | some c => match r.2.2 with | some i => likeContains i.item c | none => false)
  let keys := List.insertionSort strLe (dedup (rows.map fun r => dateKey period r.1.date))
  keys.map fun k =>
    let grs := rows.filter fun r => dateKey period r.1.date == k
    { period := k,
      transaction_count := countDistinct grs fun r => r.1.voucher_number,
      total_spending := round2 (sumBy grs fun r => (r.2.1.map (·.amount)).getD 0),
      avg_transaction_value :=
        round2 (sumBy grs (fun r => (r.2.1.map (·.amount)).getD 0) / grs.length),
      unique_suppliers := countDistinctSome grs fun r => r.1.party_name,
      unique_items := countDistinctSome grs fun r => r.2.2.map (·.item) }

/-- `get_procurement_analysis`. -/
def getProcurementAnalysis (store : Option DB) (period : String)
    (date_from date_to category : Option String) : ProcurementAnalysisResult × Nat :=
  match runQ store (procurementAnalysisQuery period date_from date_to category) with
  | [] => ({ status := "error", message := some "No procurement data found" }, 1)
  | r :: rs =>
    ({ status := "success",
       procurement_analysis := r :: rs,
       period_type := some period,
       total_periods := some (r :: rs).length }, 1)

/-! ### Manager tools (`src/manager/tools/tools.py`) -/

/-- The single row of the business-overview aggregate query. -/
structure OverviewAgg where
  total_transactions : Nat
  unique_parties : Nat
  voucher_types : Nat
  total_inflows : ℚ
  total_outflows : ℚ
  net_position : ℚ
  unique_items : Nat
  active_warehouses : Nat
  total_inward_qty : ℚ
  total_outward_qty : ℚ
  period_start : Option Date
  period_end : Option Date
  active_days : Nat
deriving DecidableEq, Repr

/-- The business-overview query: one aggregate row over the double
`LEFT JOIN` of the date-filtered vouchers (`SUM` results that can only be
`NULL` on an empty row set are folded through the Python `or 0`). -/
def businessOverviewQuery (date_from date_to : Option String) (db : DB) :
    List OverviewAgg :=
  let rows := leftJoin2 db
    (db.trn_voucher.filter (salesWhere date_from date_to none none))
  [{ total_transactions := countDistinct rows fun r => r.1.voucher_number,
     unique_parties := countDistinctSome rows fun r => r.1.party_name,
     voucher_types := countDistinct rows fun r => r.1.voucher_type,
     total_inflows := sumBy rows fun r => posAmt r.2.1,
     total_outflows := sumBy rows fun r =>
       match r.2.1 with | some a => if a.amount < 0 then -a.amount else 0 | none => 0,
     net_position := sumBy rows fun r => (r.2.1.map (·.amount)).getD 0,
     unique_items := countDistinctSome rows fun r => r.2.2.map (·.item),
     active_warehouses := countDistinctSome rows fun r => r.2.2.map (·.godown),
     total_inward_qty := sumBy rows fun r => posQty r.2.2,
     total_outward_qty := sumBy rows fun r =>
       match r.2.2 with | some i => if i.quantity < 0 then -i.quantity else 0 | none => 0,
     period_start := listMin Date.leb (rows.map fun r => r.1.date),
     period_end := listMax Date.leb (rows.map fun r => r.1.date),
     active_days := countDistinct rows fun r => r.1.date }]

/-- Result of `get_business_overview` (nested payload flattened). -/
structure OverviewResult where
  status : String
  message : Option String := none
  total_transactions : Option Nat := none
  unique_parties : Option Nat := none
  voucher_types : Option Nat := none
  active_days : Option Nat := none
  total_inflows : Option ℚ := none
  total_outflows : Option ℚ := none
  net_position : Option ℚ := none
  daily_avg_inflows : Option ℚ := none
  daily_avg_outflows : Option ℚ := none
  unique_items : Option Nat := none
  active_warehouses : Option Nat := none
  total_inward_qty : Option ℚ := none
  total_outward_qty : Option ℚ := none
  inventory_turnover : Option String := none
  period_start : Option Date := none
  period_end : Option Date := none
  duration_days : Option Nat := none
deriving DecidableEq, Repr

/-- `get_business_overview`. -/
def getBusinessOverview (store : Option DB) (date_from date_to : Option String) :
    OverviewResult × Nat :=
  match runQ store (businessOverviewQuery date_from date_to) with
  | [] => ({ status := "error", message := some "No business data found" }, 1)
  | row :: _ =>
    let active_days := max (if row.active_days == 0 then 1 else row.active_days) 1
    ({ status := "success",
       total_transactions := some row.total_transactions,
       unique_parties := some row.unique_parties,
       voucher_types := some row.voucher_types,
       active_days := some row.active_days,
       total_inflows := some (round2 row.total_inflows),
       total_outflows := some (round2 row.total_outflows),
       net_position := some (round2 row.net_position),
       daily_avg_inflows := some (round2 (row.total_inflows / active_days)),
       daily_avg_outflows := some (round2 (row.total_outflows / active_days)),
       unique_items := some row.unique_items,
       active_warehouses := some row.active_warehouses,
       total_inward_qty := some (round2 row.total_inward_qty),
       total_outward_qty := some (round2 row.total_outward_qty),
       inventory_turnover :=
         some (if row.total_outward_qty ≠ 0 ∧ row.total_inward_qty ≠ 0
           then "High" else "Low"),
       period_start := row.period_start,
       period_end := row.period_end,
       duration_days := some active_days }, 1)

end BizAdk

namespace BizAdk

/-! ## Theorems -/

/-- Helper: the balance field produced by the main path of
`get_account_balance` for the first matched ledger. -/
theorem getAccountBalanceGo_balance (db : DB) (name : String) (echo : Option String)
    (asOf : Option Date) (l : Ledger) (rest : List Ledger)
    (h : matchingLedgers db name = l :: rest) :
    (getAccountBalanceGo (some db) name echo asOf).1.balance =
      some (if l.is_deemedpositive = 1
        then l.opening_balance + debitsOf db l.name asOf - creditsOf db l.name asOf
        else l.opening_balance + creditsOf db l.name asOf - debitsOf db l.name asOf) := by
  unfold getAccountBalanceGo
  simp only [runQ, h]
  simp only [closingBalance, creditsOf, debitsOf, beq_iff_eq]

/-- Helper: every account row emitted by `get_ledger_summary` carries the
closing balance computed by the nature-flag rule from its master row. -/
theorem getLedgerSummary_accounts (db : DB) (account_type : Option String)
    (iz : Bool) (a : LedgerAccountInfo)
    (ha : a ∈ (getLedgerSummary (some db) account_type iz).1.accounts) :
    ∃ l ∈ db.mst_ledger, a.account_name = l.name ∧
      a.balance = (if l.is_deemedpositive = 1
        then l.opening_balance + debitsOf db l.name none - creditsOf db l.name none
        else l.opening_balance + creditsOf db l.name none - debitsOf db l.name none) := by
  unfold getLedgerSummary at ha
  simp only [runQ] at ha
  split at ha
  · simp at ha
  · simp only [List.mem_map, List.mem_filter] at ha
    obtain ⟨r, ⟨hr, -⟩, rfl⟩ := ha
    unfold ledgerSummaryRows at hr
    simp only [List.mem_map, List.mem_filter] at hr
    obtain ⟨l, ⟨hl, -⟩, rfl⟩ := hr
    exact ⟨l, hl, rfl, by simp only [closingBalance, beq_iff_eq]⟩

/-- C1: for every resolved ledger account, the balance computed by
`get_account_balance` (with or without an `as_of` date) and per account by
`get_ledger_summary` is `O + D − C` for a debit-positive nature flag
(`is_deemedpositive = 1`) and `O + C − D` otherwise, where `D`/`C` are the
absolute debit and credit sums of the matching entries (arbitrary entry
sets, including empty and singleton ones, since `db` is universally
quantified). -/
theorem spec_c1_balance_formula :
    (∀ (db : DB) (name : String) (l : Ledger) (rest : List Ledger),
      matchingLedgers db name = l :: rest →
      (getAccountBalance (some db) name none).1.balance =
        some (if l.is_deemedpositive = 1
          then l.opening_balance + debitsOf db l.name none - creditsOf db l.name none
          else l.opening_balance + creditsOf db l.name none - debitsOf db l.name none)) ∧
    (∀ (db : DB) (name s : String) (d : Date) (l : Ledger) (rest : List Ledger),
      parseDate s = some d →
      matchingLedgers db name = l :: rest →
      (getAccountBalance (some db) name (some s)).1.balance =
        some (if l.is_deemedpositive = 1
          then l.opening_balance + debitsOf db l.name (some d) - creditsOf db l.name (some d)
          else l.opening_balance + creditsOf db l.name (some d) - debitsOf db l.name (some d))) ∧
    (∀ (db : DB) (account_type : Option String) (iz : Bool) (a : LedgerAccountInfo),
      a ∈ (getLedgerSummary (some db) account_type iz).1.accounts →
      ∃ l ∈ db.mst_ledger, a.account_name = l.name ∧
        a.balance = (if l.is_deemedpositive = 1
          then l.opening_balance + debitsOf db l.name none - creditsOf db l.name none
          else l.opening_balance + creditsOf db l.name none - debitsOf db l.name none)) := by
  refine ⟨?_, ?_, ?_⟩
  · intro db name l rest h
    exact getAccountBalanceGo_balance db name none none l rest h
  · intro db name s d l rest hs h
    simp only [getAccountBalance, hs]
    exact getAccountBalanceGo_balance db name (some s) (some d) l rest h
  · exact getLedgerSummary_accounts

/-- The concrete scenario of the spec: opening balance 1000 on a
debit-positive account, one debit entry of 500 and one credit entry of 200. -/
def c1DB : DB :=
  { mst_ledger := [⟨"Cash", "", 1000, none, 1, "Current Assets", ""⟩],
    trn_voucher :=
      [⟨1, ⟨2024, 1, 5⟩, "Payment", 1, none, "", ""⟩,
       ⟨2, ⟨2024, 1, 6⟩, "Receipt", 2, none, "", ""⟩],
    trn_accounting := [⟨1, "Cash", -500⟩, ⟨2, "Cash", 200⟩],
    trn_inventory := [],
    mst_stock_item := [] }

/-- Witness for C1 at the spec's concrete scenario: the computed balance is
`1000 + 500 − 200 = 1300`. -/
theorem spec_c1_balance_formula_witness :
    (getAccountBalance (some c1DB) "Cash" none).1.balance = some 1300 := by
  have h : matchingLedgers c1DB "Cash" =
      [⟨"Cash", "", 1000, none, 1, "Current Assets", ""⟩] := by decide
  rw [spec_c1_balance_formula.1 c1DB "Cash" _ [] h]
  norm_num [debitsOf, creditsOf, entriesFor, sumBy, c1DB]

end BizAdk

namespace BizAdk

/-! ### Order facts about dates and the sort relations -/

theorem Date.not_leP_of_ltP {a b : Date} (h : Date.ltP a b) : ¬ Date.leP b a := by
  obtain ⟨y1, m1, d1⟩ := a
  obtain ⟨y2, m2, d2⟩ := b
  unfold Date.ltP at h
  unfold Date.leP
  simp only at *
  omega

theorem Date.leP_refl (a : Date) : Date.leP a a := by
  unfold Date.leP; omega

instance : IsTotal TxnRow txnGe := ⟨by
  intro a b
  unfold txnGe Date.ltP
  rcases ha : a.date with ⟨y1, m1, d1⟩
  rcases hb : b.date with ⟨y2, m2, d2⟩
  simp only [Date.mk.injEq]
  omega⟩

instance : IsTrans TxnRow txnGe := ⟨by
  intro a b c hab hbc
  unfold txnGe Date.ltP at *
  rcases ha : a.date with ⟨y1, m1, d1⟩
  rcases hb : b.date with ⟨y2, m2, d2⟩
  rcases hc : c.date with ⟨y3, m3, d3⟩
  rw [ha, hb] at hab
  rw [hb, hc] at hbc
  simp only [Date.mk.injEq] at *
  omega⟩

/-- `txnGe a b` forces `b`'s date to be at most `a`'s. -/
theorem txnGe_date {a b : TxnRow} (h : txnGe a b) : Date.leP b.date a.date := by
  unfold txnGe Date.ltP at h
  unfold Date.leP
  rcases ha : a.date with ⟨y1, m1, d1⟩
  rcases hb : b.date with ⟨y2, m2, d2⟩
  rw [ha, hb] at h
  simp only [Date.mk.injEq] at *
  omega

instance (m : String) : IsTotal CustAgg (custGe m) := ⟨by
  intro a b
  unfold custGe
  split_ifs <;> exact le_total _ _⟩

instance (m : String) : IsTrans CustAgg (custGe m) := ⟨by
  intro a b c hab hbc
  unfold custGe at *
  split_ifs at * <;> exact le_trans hbc hab⟩

instance (bv : Bool) : IsTotal ItemAgg (itemAggGe bv) := ⟨by
  intro a b
  unfold itemAggGe
  split_ifs <;> exact le_total _ _⟩

instance (bv : Bool) : IsTrans ItemAgg (itemAggGe bv) := ⟨by
  intro a b c hab hbc
  unfold itemAggGe at *
  split_ifs at * <;> exact le_trans hbc hab⟩

/-! ### C2: start-after-end validation -/

/-- C2 counterexample: with a start date strictly after the end date,
`get_sales_summary` does not reject the input; it issues its query (one query
is executed) and returns `success`, not an invalid-input error. -/
theorem spec_c2_counterexample :
    parseDate "2024-01-02" = some ⟨2024, 1, 2⟩ ∧
    parseDate "2024-01-01" = some ⟨2024, 1, 1⟩ ∧
    Date.ltP ⟨2024, 1, 1⟩ ⟨2024, 1, 2⟩ ∧
    (getSalesSummary (some emptyDB) (some "2024-01-02") (some "2024-01-01")
      none none).2 = 1 ∧
    (getSalesSummary (some emptyDB) (some "2024-01-02") (some "2024-01-01")
      none none).1.status = "success" := by
  refine ⟨by decide, by decide, by decide, ?_, ?_⟩ <;>
    simp [getSalesSummary, salesSummaryQuery, runQ, leftJoinAcc, emptyDB]

/-- C2 amended: only the financial windowed operations (`get_cash_flow`,
`get_profit_loss`) and the inventory `get_stock_movements` reject a
start-after-end window before issuing any query, with the invalid-input
error message; the sales, purchase and manager windowed operations
(`get_sales_summary`, `get_revenue_analysis`, `get_purchase_summary`,
`get_procurement_analysis`, `get_business_overview`) perform no date
validation and issue their query regardless. -/
theorem spec_c2_amended :
    (∀ (store : Option DB) (sd ed : String) (s e : Date) (item : Option String),
      parseDate sd = some s → parseDate ed = some e → Date.ltP e s →
      (getCashFlow store sd ed).1.status = "error" ∧
      (getCashFlow store sd ed).1.error_message =
        some "Start date cannot be after end date" ∧
      (getCashFlow store sd ed).2 = 0 ∧
      (getProfitLoss store sd ed).1.status = "error" ∧
      (getProfitLoss store sd ed).2 = 0 ∧
      (getStockMovements store sd ed item).1.status = "error" ∧
      (getStockMovements store sd ed item).2 = 0) ∧
    (∀ (store : Option DB) (sd ed : String) (s e : Date)
      (c vt cat : Option String) (p : String),
      parseDate sd = some s → parseDate ed = some e → Date.ltP e s →
      (getSalesSummary store (some sd) (some ed) c vt).2 = 1 ∧
      (getRevenueAnalysis store p (some sd) (some ed)).2 = 1 ∧
      (getPurchaseSummary store (some sd) (some ed) c vt).2 = 1 ∧
      (getProcurementAnalysis store p (some sd) (some ed) cat).2 = 1 ∧
      (getBusinessOverview store (some sd) (some ed)).2 = 1) := by
  constructor
  · intro store sd ed s e item hs he hlt
    have hn := Date.not_leP_of_ltP hlt
    refine ⟨?_, ?_, ?_, ?_, ?_, ?_, ?_⟩ <;>
      simp [getCashFlow, getProfitLoss, getStockMovements, hs, he, hn]
  · intro store sd ed s e c vt cat p hs he hlt
    refine ⟨?_, ?_, ?_, ?_, ?_⟩
    · unfold getSalesSummary
      rcases runQ store (salesSummaryQuery (some sd) (some ed) c vt) with _ | ⟨r, rs⟩ <;> rfl
    · unfold getRevenueAnalysis
      rcases runQ store (revenueAnalysisQuery p (some sd) (some ed)) with _ | ⟨r, rs⟩ <;> rfl
    · unfold getPurchaseSummary
      rcases runQ store (purchaseSummaryQuery (some sd) (some ed) c vt) with _ | ⟨r, rs⟩ <;> rfl
    · unfold getProcurementAnalysis
      rcases runQ store (procurementAnalysisQuery p (some sd) (some ed) cat) with _ | ⟨r, rs⟩ <;> rfl
    · unfold getBusinessOverview
      rcases runQ store (businessOverviewQuery (some sd) (some ed)) with _ | ⟨r, rs⟩ <;> rfl

/-- Witness for C2 amended, at the window 2024-01-02 .. 2024-01-01. -/
theorem spec_c2_amended_witness :
    (getCashFlow (some emptyDB) "2024-01-02" "2024-01-01").1.status = "error" ∧
    (getCashFlow (some emptyDB) "2024-01-02" "2024-01-01").2 = 0 ∧
    (getBusinessOverview (some emptyDB) (some "2024-01-02") (some "2024-01-01")).2 = 1 := by
  have h1 := spec_c2_amended.1 (some emptyDB) "2024-01-02" "2024-01-01"
    ⟨2024, 1, 2⟩ ⟨2024, 1, 1⟩ none (by decide) (by decide) (by decide)
  have h2 := spec_c2_amended.2 (some emptyDB) "2024-01-02" "2024-01-01"
    ⟨2024, 1, 2⟩ ⟨2024, 1, 1⟩ none none none "monthly" (by decide) (by decide) (by decide)
  exact ⟨h1.1, h1.2.2.1, h2.2.2.2.2⟩

/-! ### C3: no-data versus data-access failure -/

/-- C3 counterexample: an unreachable store (`execute_query` absorbs the
failure into an empty row list) makes `get_cash_flow` report `no_data`, not
`error`, on a valid window — the data-access failure is not surfaced. -/
theorem spec_c3_counterexample :
    (getCashFlow none "2024-01-01" "2024-01-31").1.status = "no_data" ∧
    (getCashFlow none "2024-01-01" "2024-01-31").1.status =
      (getCashFlow (some emptyDB) "2024-01-01" "2024-01-31").1.status := by
  constructor <;> decide

/-- C3 amended: `execute_query` returns an empty row list both when the store
is unreachable and when the query fails, so callers cannot distinguish a
data-access failure from an empty result: `get_cash_flow` and
`get_stock_movements` return exactly the same payload (`no_data`) for an
unreachable store as for an empty store; `get_top_customers` returns the same
`error` payload for both; and `get_sales_summary` labels an unreachable store
`error` but an empty store `success`. -/
theorem spec_c3_amended :
    (∀ sd ed : String, getCashFlow none sd ed = getCashFlow (some emptyDB) sd ed) ∧
    (∀ (sd ed : String) (item : Option String),
      getStockMovements none sd ed item = getStockMovements (some emptyDB) sd ed item) ∧
    (∀ (m : String) (lim : Nat) (df dt : Option String),
      getTopCustomers none m lim df dt = getTopCustomers (some emptyDB) m lim df dt) ∧
    (∀ df dt c vt : Option String,
      (getSalesSummary none df dt c vt).1.status = "error" ∧
      (getSalesSummary (some emptyDB) df dt c vt).1.status = "success") := by
  refine ⟨?_, ?_, ?_, ?_⟩
  · intro sd ed
    unfold getCashFlow
    cases parseDate sd <;> cases parseDate ed <;> rfl
  · intro sd ed item
    unfold getStockMovements
    cases parseDate sd <;> cases parseDate ed <;> rfl
  · intro m lim df dt
    simp [getTopCustomers, runQ, custAggs, leftJoin2, emptyDB, dedup, dedupAux,
      sqlSortDesc, List.insertionSort, List.take_nil]
  · intro df dt c vt
    exact ⟨rfl, rfl⟩

end BizAdk


namespace BizAdk

/-! ### C10: the aggregate-only summaries always succeed -/

theorem round2_zero : round2 0 = 0 := by norm_num [round2]

/-- C10: the sales/purchase summary queries are aggregate-only `SELECT`s that
always yield exactly one row, so on a reachable store both tools always
return `success`; when no voucher row matches the filters the totals are
zero and the period string is `None to None`, and the `error` branch for an
empty result list is unreachable. -/
theorem spec_c10_summary_success :
    (∀ (db : DB) (df dt c vt : Option String),
      (getSalesSummary (some db) df dt c vt).1.status = "success") ∧
    (∀ (db : DB) (df dt c vt : Option String),
      leftJoinAcc db (db.trn_voucher.filter (salesWhere df dt c vt)) = [] →
      (getSalesSummary (some db) df dt c vt).1.total_revenue = some 0 ∧
      (getSalesSummary (some db) df dt c vt).1.avg_transaction_value = some 0 ∧
      (getSalesSummary (some db) df dt c vt).1.period = some "None to None" ∧
      (getSalesSummary (some db) df dt c vt).1.total_transactions = some 0 ∧
      (getSalesSummary (some db) df dt c vt).1.unique_customers = some 0) ∧
    (∀ (db : DB) (df dt sp vt : Option String),
      (getPurchaseSummary (some db) df dt sp vt).1.status = "success") ∧
    (∀ (db : DB) (df dt sp vt : Option String),
      (leftJoinAcc db (db.trn_voucher.filter (salesWhere df dt sp vt))).filter
        purchaseRowOk = [] →
      (getPurchaseSummary (some db) df dt sp vt).1.total_purchase_cost = some 0 ∧
      (getPurchaseSummary (some db) df dt sp vt).1.avg_transaction_value = some 0 ∧
      (getPurchaseSummary (some db) df dt sp vt).1.period = some "None to None" ∧
      (getPurchaseSummary (some db) df dt sp vt).1.total_transactions = some 0 ∧
      (getPurchaseSummary (some db) df dt sp vt).1.unique_suppliers = some 0) := by
  refine ⟨?_, ?_, ?_, ?_⟩
  · intro db df dt c vt
    simp [getSalesSummary, runQ, salesSummaryQuery]
  · intro db df dt c vt h
    simp [getSalesSummary, runQ, salesSummaryQuery, h, aggOpt, listMin, listMax,
      countDistinct, countDistinctSome, dedup, dedupAux, round2_zero, periodStr]
  · intro db df dt sp vt
    simp [getPurchaseSummary, runQ, purchaseSummaryQuery]
  · intro db df dt sp vt h
    simp [getPurchaseSummary, runQ, purchaseSummaryQuery, h, aggOpt, listMin, listMax,
      countDistinct, countDistinctSome, dedup, dedupAux, round2_zero, periodStr]

/-- Witness for C10 on the empty store: both summaries succeed with zero
totals and period `None to None`. -/
theorem spec_c10_summary_success_witness :
    (getSalesSummary (some emptyDB) none none none none).1.status = "success" ∧
    (getSalesSummary (some emptyDB) none none none none).1.total_revenue = some 0 ∧
    (getSalesSummary (some emptyDB) none none none none).1.period = some "None to None" ∧
    (getPurchaseSummary (some emptyDB) none none none none).1.status = "success" ∧
    (getPurchaseSummary (some emptyDB) none none none none).1.total_purchase_cost
      = some 0 := by
  have hs := spec_c10_summary_success.2.1 emptyDB none none none none rfl
  have hp := spec_c10_summary_success.2.2.2 emptyDB none none none none rfl
  exact ⟨spec_c10_summary_success.1 emptyDB none none none none,
    hs.1, hs.2.2.1,
    spec_c10_summary_success.2.2.1 emptyDB none none none none, hp.1⟩

/-! ### C7: the 180-day default window of `get_payment_receipts` -/

theorem mem_dedupAux {α : Type} [DecidableEq α] (l : List α) (seen : List α) (x : α) :
    x ∈ dedupAux seen l ↔ x ∈ l ∧ x ∉ seen := by
  induction l generalizing seen with
  | nil => simp [dedupAux]
  | cons a as ih =>
    by_cases ha : a ∈ seen
    · rw [show dedupAux seen (a :: as) = dedupAux seen as from by
        simp [dedupAux, ha], ih]
      simp only [List.mem_cons]
      constructor
      · rintro ⟨h, hn⟩
        exact ⟨Or.inr h, hn⟩
      · rintro ⟨h | h, hn⟩
        · subst h; exact absurd ha hn
        · exact ⟨h, hn⟩
    · rw [show dedupAux seen (a :: as) = a :: dedupAux (a :: seen) as from by
        simp [dedupAux, ha]]
      simp only [List.mem_cons, ih, List.mem_cons]
      constructor
      · rintro (rfl | ⟨h, hn⟩)
        · exact ⟨Or.inl rfl, ha⟩
        · exact ⟨Or.inr h, fun hx => hn (Or.inr hx)⟩
      · rintro ⟨rfl | h, hn⟩
        · exact Or.inl rfl
        · by_cases hxa : x = a
          · exact Or.inl hxa
          · exact Or.inr ⟨h, fun hx => (hx.elim hxa hn : False)⟩

theorem mem_dedup {α : Type} [DecidableEq α] (l : List α) (x : α) :
    x ∈ dedup l ↔ x ∈ l := by
  simp [dedup, mem_dedupAux]

/-- Every grouped transaction row comes from a voucher accepted by the row
filter and carries that voucher's date. -/
theorem mem_txnRows_date {db : DB} {keep : Voucher → Bool} {t : TxnRow}
    (ht : t ∈ txnRows db keep) : ∃ v, keep v = true ∧ t.date = v.date := by
  unfold txnRows at ht
  simp only [List.mem_map] at ht
  obtain ⟨k, hk, rfl⟩ := ht
  rw [mem_dedup] at hk
  simp only [List.mem_map] at hk
  obtain ⟨r, hr, rfl⟩ := hk
  simp only [List.mem_flatMap] at hr
  obtain ⟨v, hv, hrv⟩ := hr
  by_cases hkeep : keep v
  · rw [if_pos hkeep] at hrv
    simp only [List.mem_map] at hrv
    obtain ⟨a, -, rfl⟩ := hrv
    exact ⟨v, hkeep, rfl⟩
  · rw [if_neg hkeep] at hrv
    simp at hrv

/-- Every row returned by the payment/receipt query is dated inside `[s, e]`. -/
theorem mem_prQuery_date {ttype : String} {s e : Date} {party : Option String}
    {lim : Option Nat} {db : DB} {t : TxnRow}
    (ht : t ∈ prQuery ttype s e party lim db) :
    Date.leP s t.date ∧ Date.leP t.date e := by
  simp only [prQuery] at ht
  have hsorted : t ∈ List.insertionSort txnGe (txnRows db fun v =>
      vtypeFilter ttype v.voucher_type && Date.leb s v.date && Date.leb v.date e
        && partyFilter party v.party_name) := by
    split at ht
    · exact List.mem_of_mem_take ht
    · exact ht
  have hmem := (List.perm_insertionSort txnGe _).mem_iff.mp hsorted
  obtain ⟨v, hkeep, hdate⟩ := mem_txnRows_date hmem
  simp only [Bool.and_eq_true, Date.leb, decide_eq_true_eq] at hkeep
  exact ⟨hdate ▸ hkeep.1.1.2, hdate ▸ hkeep.1.2⟩

/-- The transactions returned by the main path of `get_payment_receipts` all
fall inside the `[s, e]` window, and the window is echoed back. -/
theorem getPaymentReceiptsGo_window (store : Option DB) (ttype : String)
    (s e : Date) (sd ed : String) (party : Option String) (lim : Option Nat) :
    (getPaymentReceiptsGo store ttype s e sd ed party lim).1.start_date = some sd ∧
    (getPaymentReceiptsGo store ttype s e sd ed party lim).1.end_date = some ed ∧
    ∀ t ∈ (getPaymentReceiptsGo store ttype s e sd ed party lim).1.transactions,
      Date.leP s t.date ∧ Date.leP t.date e := by
  simp only [getPaymentReceiptsGo]
  by_cases h : (runQ store (prQuery ttype s e party lim)).isEmpty = true
  · rw [if_pos h]
    exact ⟨rfl, rfl, by intro t ht; simp at ht⟩
  · rw [if_neg h]
    refine ⟨rfl, rfl, ?_⟩
    intro t ht
    rcases store with - | db
    · simp [runQ] at ht
    · exact mem_prQuery_date ht

/-- C7: whenever `start_date` or `end_date` is omitted (and the transaction
type is valid), `get_payment_receipts` uses the fixed default window of
exactly 180 days ending at the current date, reports that window back in the
result, and every returned transaction falls inside it. -/
theorem spec_c7_default_window :
    ∀ (today : Date) (store : Option DB) (ttype : String)
      (sd ed party : Option String) (lim : Option Nat),
      (ttype = "payment" ∨ ttype = "receipt" ∨ ttype = "both") →
      (sd = none ∨ ed = none) →
      (getPaymentReceipts today store ttype sd ed party lim).1.start_date =
        some (Date.subDays today 180).toStr ∧
      (getPaymentReceipts today store ttype sd ed party lim).1.end_date =
        some today.toStr ∧
      ∀ t ∈ (getPaymentReceipts today store ttype sd ed party lim).1.transactions,
        Date.leP (Date.subDays today 180) t.date ∧ Date.leP t.date today := by
  intro today store ttype sd ed party lim htype hdef
  have hvalid : (!(ttype == "payment" || ttype == "receipt" || ttype == "both")) = false := by
    rcases htype with rfl | rfl | rfl <;> rfl
  have hgo : getPaymentReceipts today store ttype sd ed party lim =
      getPaymentReceiptsGo store ttype (Date.subDays today 180) today
        (Date.subDays today 180).toStr today.toStr party lim := by
    unfold getPaymentReceipts
    rw [hvalid]
    rcases hdef with rfl | rfl
    · rfl
    · cases sd <;> rfl
  rw [hgo]
  exact getPaymentReceiptsGo_window store ttype (Date.subDays today 180) today
    (Date.subDays today 180).toStr today.toStr party lim

section

set_option maxRecDepth 8000

/-- Witness for C7: with `today = 2024-06-29` and no dates supplied, the
effective window is exactly 2024-01-01 .. 2024-06-29. -/
theorem spec_c7_default_window_witness :
    (getPaymentReceipts ⟨2024, 6, 29⟩ none "payment" none none none none).1.start_date =
      some "2024-01-01" ∧
    (getPaymentReceipts ⟨2024, 6, 29⟩ none "payment" none none none none).1.end_date =
      some "2024-06-29" := by
  have h := spec_c7_default_window ⟨2024, 6, 29⟩ none "payment" none none none none
    (Or.inl rfl) (Or.inl rfl)
  have hs : (Date.subDays ⟨2024, 6, 29⟩ 180).toStr = "2024-01-01" := by decide
  have he : Date.toStr ⟨2024, 6, 29⟩ = "2024-06-29" := by decide
  exact ⟨hs ▸ h.1, he ▸ h.2.1⟩

end

end BizAdk

namespace BizAdk

/-! ### C4: top-K ranking order -/

/-- In a pairwise-ordered list, every kept element is related to every
element beyond the cut. -/
theorem take_drop_rel {α : Type} {r : α → α → Prop} {l : List α}
    (hp : List.Pairwise r l) (k : Nat) :
    ∀ x ∈ l.take k, ∀ y ∈ l.drop k, r x y := by
  have h : List.Pairwise r (l.take k ++ l.drop k) := by
    rw [List.take_append_drop]; exact hp
  exact (List.pairwise_append.mp h).2.2

theorem charListLe_refl : ∀ as : List Char, charListLe as as := by
  intro as
  induction as with
  | nil => exact trivial
  | cons a t ih => exact Or.inr ⟨rfl, ih⟩

theorem strLe_refl (s : String) : strLe s s := charListLe_refl s.data

theorem charListLe_total : ∀ as bs : List Char, charListLe as bs ∨ charListLe bs as := by
  intro as
  induction as with
  | nil => intro bs; exact Or.inl trivial
  | cons a t ih =>
    intro bs
    cases bs with
    | nil => exact Or.inr trivial
    | cons b u =>
      rcases Nat.lt_trichotomy a.toNat b.toNat with h | h | h
      · exact Or.inl (Or.inl h)
      · rcases ih u with hc | hc
        · exact Or.inl (Or.inr ⟨h, hc⟩)
        · exact Or.inr (Or.inr ⟨h.symm, hc⟩)
      · exact Or.inr (Or.inl h)

theorem charListLe_trans : ∀ as bs cs : List Char,
    charListLe as bs → charListLe bs cs → charListLe as cs := by
  intro as
  induction as with
  | nil => intro bs cs _ _; exact trivial
  | cons a t ih =>
    intro bs cs hab hbc
    cases bs with
    | nil => exact absurd hab (fun h => h)
    | cons b u =>
      cases cs with
      | nil => exact absurd hbc (fun h => h)
      | cons c v =>
        rcases hab with h1 | ⟨h1, h1'⟩ <;> rcases hbc with h2 | ⟨h2, h2'⟩
        · exact Or.inl (Nat.lt_trans h1 h2)
        · exact Or.inl (h2 ▸ h1)
        · exact Or.inl (h1 ▸ h2)
        · exact Or.inr ⟨h1.trans h2, ih u v h1' h2'⟩

instance : IsTotal String strLe := ⟨fun a b => charListLe_total a.data b.data⟩

instance : IsTrans String strLe := ⟨fun a b c => charListLe_trans a.data b.data c.data⟩

/-- Two members of a pairwise-ordered list whose reverse relation fails form
an ordered pair sublist. -/
theorem pair_sublist_of_pairwise {α : Type} {R : α → α → Prop} :
    ∀ {l : List α}, List.Pairwise R l → ∀ {x y : α}, x ∈ l → y ∈ l →
      ¬ R y x → x ≠ y → [x, y].Sublist l := by
  intro l
  induction l with
  | nil => intro _ x y hx; simp at hx
  | cons a t ih =>
    intro hp x y hx hy hnr hne
    by_cases hxa : x = a
    · have hyt : y ∈ t := by
        rcases List.mem_cons.mp hy with hya | h
        · exact absurd (hxa.trans hya.symm) hne
        · exact h
      rw [hxa]
      exact List.Sublist.cons₂ a (List.singleton_sublist.mpr hyt)
    · have hxt : x ∈ t := by
        rcases List.mem_cons.mp hx with h | h
        · exact absurd h hxa
        · exact h
      rcases List.mem_cons.mp hy with hya | hyt
      · exact absurd (by rw [hya]; exact (List.pairwise_cons.mp hp).1 x hxt) hnr
      · exact List.Sublist.cons a (ih (List.pairwise_cons.mp hp).2 hxt hyt hnr hne)

/-- The tie-order law of the modelled `ORDER BY ... DESC`: if the groups are
enumerated with keys ascending, then of two groups related by the sort
relation the strictly larger-keyed one is emitted first — equal-metric ties
come out key-descending. -/
theorem sqlSortDesc_tie_order {α : Type} (r : α → α → Prop) [DecidableRel r]
    (key : α → String) {l : List α}
    (hp : List.Pairwise (fun g h => strLe (key g) (key h)) l)
    {x y : α} (hx : x ∈ l) (hy : y ∈ l) (hr : r y x)
    (hk : ¬ strLe (key y) (key x)) :
    [y, x].Sublist (sqlSortDesc r l) := by
  have hne : x ≠ y := by
    rintro rfl
    exact hk (strLe_refl _)
  have hsub : [x, y].Sublist l := pair_sublist_of_pairwise hp hx hy hk hne
  have hrev : [y, x].Sublist l.reverse := by
    have h := hsub.reverse
    simpa using h
  exact List.pair_sublist_insertionSort hr hrev

/-- The customer groups are enumerated with party names ascending. -/
theorem custAggs_key_pairwise (df dt : Option String) (db : DB) :
    List.Pairwise (fun g h : CustAgg => strLe g.party_name h.party_name)
      (custAggs df dt db) := by
  unfold custAggs
  rw [List.pairwise_map]
  exact List.sorted_insertionSort strLe _

/-- The item groups are enumerated with item names ascending. -/
theorem itemAggs_key_pairwise (db : DB) :
    List.Pairwise (fun g h : ItemAgg => strLe g.item h.item) (itemAggs db) := by
  unfold itemAggs
  rw [List.pairwise_map]
  exact List.sorted_insertionSort strLe _

/-- The tie fixture for the ranking claims: three customers with identical
revenue 100, stored in the mixed order B, A, C. -/
def c4DB : DB :=
  { mst_ledger := [],
    trn_voucher :=
      [⟨1, ⟨2024, 1, 5⟩, "Sales", 1, some "B", "", ""⟩,
       ⟨2, ⟨2024, 1, 6⟩, "Sales", 2, some "A", "", ""⟩,
       ⟨3, ⟨2024, 1, 7⟩, "Sales", 3, some "C", "", ""⟩],
    trn_accounting := [⟨1, "Sales", 100⟩, ⟨2, "Sales", 100⟩, ⟨3, "Sales", 100⟩],
    trn_inventory := [],
    mst_stock_item := [] }

/-- C4 counterexample: on a fixture with three equal-revenue customers
(stored B, A, C), `get_top_customers` returns the tie in name-descending
order `[C, B, A]` — the key-ascending group enumeration reversed by the
metric sort — not in the claimed name-ascending order `[A, B, C]`. -/
theorem spec_c4_counterexample :
    ((getTopCustomers (some c4DB) "revenue" 10 none none).1.top_customers.map
      fun r => r.customer_name) = ["C", "B", "A"] ∧
    ((getTopCustomers (some c4DB) "revenue" 10 none none).1.top_customers.map
      fun r => r.total_revenue) = [100, 100, 100] ∧
    ["C", "B", "A"] ≠ ["A", "B", "C"] := by
  have h1 : custAggs none none c4DB =
      [⟨"A", 1, 100, 0, 100⟩, ⟨"B", 1, 100, 0, 100⟩, ⟨"C", 1, 100, 0, 100⟩] := by
    simp +decide [custAggs, leftJoin2, optRows, c4DB, salesWhere, dedup, dedupAux,
      countDistinct, countDistinctSome, sumBy, posAmt, posQty, List.insertionSort,
      List.orderedInsert]
  have hr : round2 (100 : ℚ) = 100 := by norm_num [round2]
  have h2 : (getTopCustomers (some c4DB) "revenue" 10 none none).1.top_customers =
      [⟨"C", 1, round2 100, round2 0, round2 100⟩,
       ⟨"B", 1, round2 100, round2 0, round2 100⟩,
       ⟨"A", 1, round2 100, round2 0, round2 100⟩] := by
    simp only [getTopCustomers, runQ, h1, sqlSortDesc, List.reverse_cons,
      List.reverse_nil, List.nil_append, List.cons_append, List.append_nil]
    norm_num [List.insertionSort, List.orderedInsert, custGe]
  refine ⟨?_, ?_, by decide⟩ <;> simp [h2, hr, round2_zero]

/-- C4 amended: each top-K ranking returns the first `N` rows of the sort of
the per-entity aggregates, with at most `N` rows, genuinely sorted by the
chosen metric, and every returned group's metric at least that of every
excluded group; the result is a pure function of the dataset (deterministic
across runs), but ties between equal-metric entities come out in entity-name
DESCENDING order — the reverse of the key-ascending group enumeration — not
in the name-ascending order the spec claims. -/
theorem spec_c4_amended :
    (∀ (db : DB) (metric : String) (lim : Nat) (df dt : Option String),
      (getTopCustomers (some db) metric lim df dt).1.top_customers =
        ((sqlSortDesc (custGe metric) (custAggs df dt db)).take lim).map
          (fun r =>
            { customer_name := r.party_name,
              transaction_count := r.transaction_count,
              total_revenue := round2 r.total_revenue,
              total_quantity := round2 r.total_quantity,
              avg_transaction_value := round2 r.avg_transaction_value }) ∧
      List.Sorted (custGe metric) (sqlSortDesc (custGe metric) (custAggs df dt db)) ∧
      (∀ x y : CustAgg, x ∈ custAggs df dt db → y ∈ custAggs df dt db →
        custGe metric x y → custGe metric y x →
        ¬ strLe y.party_name x.party_name →
        [y, x].Sublist (sqlSortDesc (custGe metric) (custAggs df dt db))) ∧
      (∀ x ∈ (sqlSortDesc (custGe metric) (custAggs df dt db)).take lim,
        ∀ y ∈ (sqlSortDesc (custGe metric) (custAggs df dt db)).drop lim,
          custGe metric x y) ∧
      (getTopCustomers (some db) metric lim df dt).1.top_customers.length ≤ lim) ∧
    (∀ (db : DB) (lim : Nat) (bv : Bool),
      (getTopItems (some db) lim bv).1.top_items =
        ((sqlSortDesc (itemAggGe bv) (itemAggs db)).take lim).map
          (fun r =>
            { item_name := r.item, total_quantity := r.total_quantity,
              avg_rate := r.avg_rate, total_value := r.total_value,
              transaction_count := r.transaction_count,
              godown_count := r.godown_count,
              locations := if 1 < r.godown_count then "Multiple" else "Single" }) ∧
      List.Sorted (itemAggGe bv) (sqlSortDesc (itemAggGe bv) (itemAggs db)) ∧
      (∀ x y : ItemAgg, x ∈ itemAggs db → y ∈ itemAggs db →
        itemAggGe bv x y → itemAggGe bv y x →
        ¬ strLe y.item x.item →
        [y, x].Sublist (sqlSortDesc (itemAggGe bv) (itemAggs db))) ∧
      (∀ x ∈ (sqlSortDesc (itemAggGe bv) (itemAggs db)).take lim,
        ∀ y ∈ (sqlSortDesc (itemAggGe bv) (itemAggs db)).drop lim,
          itemAggGe bv x y) ∧
      (getTopItems (some db) lim bv).1.top_items.length ≤ lim) := by
  constructor
  · intro db metric lim df dt
    have heq : (getTopCustomers (some db) metric lim df dt).1.top_customers =
        ((sqlSortDesc (custGe metric) (custAggs df dt db)).take lim).map
          (fun r =>
            { customer_name := r.party_name,
              transaction_count := r.transaction_count,
              total_revenue := round2 r.total_revenue,
              total_quantity := round2 r.total_quantity,
              avg_transaction_value := round2 r.avg_transaction_value }) := by
      simp only [getTopCustomers, runQ]
      by_cases h :
        ((sqlSortDesc (custGe metric) (custAggs df dt db)).take lim).isEmpty = true
      · rw [if_pos h]
        rw [List.isEmpty_iff.mp h]
        rfl
      · rw [if_neg h]
    have hsorted : List.Sorted (custGe metric)
        (sqlSortDesc (custGe metric) (custAggs df dt db)) := by
      unfold sqlSortDesc
      exact List.sorted_insertionSort _ _
    refine ⟨heq, hsorted, ?_, take_drop_rel hsorted lim, ?_⟩
    · intro x y hx hy _ hyx hk
      exact sqlSortDesc_tie_order (custGe metric) (fun g => g.party_name)
        (custAggs_key_pairwise df dt db) hx hy hyx hk
    · rw [heq, List.length_map, List.length_take]
      exact min_le_left _ _
  · intro db lim bv
    have heq : (getTopItems (some db) lim bv).1.top_items =
        ((sqlSortDesc (itemAggGe bv) (itemAggs db)).take lim).map
          (fun r =>
            { item_name := r.item, total_quantity := r.total_quantity,
              avg_rate := r.avg_rate, total_value := r.total_value,
              transaction_count := r.transaction_count,
              godown_count := r.godown_count,
              locations := if 1 < r.godown_count then "Multiple" else "Single" }) := by
      simp only [getTopItems, runQ]
      by_cases h :
        ((sqlSortDesc (itemAggGe bv) (itemAggs db)).take lim).isEmpty = true
      · rw [if_pos h]
        rw [List.isEmpty_iff.mp h]
        rfl
      · rw [if_neg h]
    have hsorted : List.Sorted (itemAggGe bv)
        (sqlSortDesc (itemAggGe bv) (itemAggs db)) := by
      unfold sqlSortDesc
      exact List.sorted_insertionSort _ _
    refine ⟨heq, hsorted, ?_, take_drop_rel hsorted lim, ?_⟩
    · intro x y hx hy _ hyx hk
      exact sqlSortDesc_tie_order (itemAggGe bv) (fun g => g.item)
        (itemAggs_key_pairwise db) hx hy hyx hk
    · rw [heq, List.length_map, List.length_take]
      exact min_le_left _ _

/-- Witness for C4 amended on the tie fixture: the result is within the
limit, the sort is genuinely sorted, and of the equal-revenue pair `B`, `C`
the larger name `C` precedes `B` in the sorted output. -/
theorem spec_c4_amended_witness :
    (getTopCustomers (some c4DB) "revenue" 10 none none).1.top_customers.length ≤ 10 ∧
    List.Sorted (custGe "revenue")
      (sqlSortDesc (custGe "revenue") (custAggs none none c4DB)) ∧
    ([⟨"C", 1, 100, 0, 100⟩, ⟨"B", 1, 100, 0, 100⟩] : List CustAgg).Sublist
      (sqlSortDesc (custGe "revenue") (custAggs none none c4DB)) := by
  have h1 : custAggs none none c4DB =
      [⟨"A", 1, 100, 0, 100⟩, ⟨"B", 1, 100, 0, 100⟩, ⟨"C", 1, 100, 0, 100⟩] := by
    simp +decide [custAggs, leftJoin2, optRows, c4DB, salesWhere, dedup, dedupAux,
      countDistinct, countDistinctSome, sumBy, posAmt, posQty, List.insertionSort,
      List.orderedInsert]
  have hc := spec_c4_amended.1 c4DB "revenue" 10 none none
  refine ⟨hc.2.2.2.2, hc.2.1, ?_⟩
  refine hc.2.2.1 ⟨"B", 1, 100, 0, 100⟩ ⟨"C", 1, 100, 0, 100⟩ ?_ ?_ ?_ ?_ ?_
  · rw [h1]; decide
  · rw [h1]; decide
  · decide
  · decide
  · decide

end BizAdk

namespace BizAdk

/-! ### C5: ambiguous name-fragment resolution -/

/-- First ambiguous-match ledger (first in table order, later alphabetically). -/
def c5L1 : Ledger := ⟨"Cash B", "", 50, none, 1, "Assets", ""⟩

/-- Second ambiguous-match ledger. -/
def c5L2 : Ledger := ⟨"Cash A", "", 70, none, 1, "Assets", ""⟩

/-- Store in which the fragment `Cash` matches two ledgers. -/
def c5DB2 : DB := ⟨[c5L1, c5L2], [], [], [], []⟩

/-- The same store without the second match. -/
def c5DB1 : DB := ⟨[c5L1], [], [], [], []⟩

/-- C5 counterexample: with two ledgers matching the fragment `Cash`, the
result of `get_account_balance` is byte-for-byte the one computed on a store
without the second match — the multiple matches are not made caller-visible
as a list — and the selected account is the first row in table order
(`Cash B`), not the alphabetical or any documented first-ranked match. -/
theorem spec_c5_counterexample :
    (matchingLedgers c5DB2 "Cash").length = 2 ∧
    getAccountBalance (some c5DB2) "Cash" none =
      getAccountBalance (some c5DB1) "Cash" none ∧
    (getAccountBalance (some c5DB2) "Cash" none).1.account_name = some "Cash B" := by
  refine ⟨by decide, rfl, by decide⟩

/-- Invariance of the `get_account_balance` result under appending a further
matching ledger row when a match already exists (the extra match is invisible
to the caller). -/
theorem getAccountBalanceGo_append (db : DB) (x : Ledger) (name : String)
    (echo : Option String) (asOf : Option Date)
    (hne : matchingLedgers db name ≠ []) :
    getAccountBalanceGo
      (some ⟨db.mst_ledger ++ [x], db.trn_voucher, db.trn_accounting,
        db.trn_inventory, db.mst_stock_item⟩) name echo asOf =
    getAccountBalanceGo (some db) name echo asOf := by
  obtain ⟨l, rest, h⟩ := List.exists_cons_of_ne_nil hne
  have hm : matchingLedgers
      (⟨db.mst_ledger ++ [x], db.trn_voucher, db.trn_accounting,
        db.trn_inventory, db.mst_stock_item⟩ : DB) name =
      l :: (rest ++ (([x] : List Ledger).filter fun l' =>
        likeContains l'.name name || likeContains l'.al name)) := by
    unfold matchingLedgers at *
    simp only [List.filter_append] at *
    rw [h]
    rfl
  unfold getAccountBalanceGo
  simp only [runQ, h, hm]
  rfl

/-- C5 amended: the entity lookups resolve an ambiguous fragment to the
first row of the unordered match query (table order); the remaining matches
are not exposed: appending another matching row to the master table leaves
the result unchanged whenever a match already exists. -/
theorem spec_c5_amended :
    (∀ (db : DB) (name : String) (l : Ledger) (rest : List Ledger),
      matchingLedgers db name = l :: rest →
      (getAccountBalance (some db) name none).1.account_name = some l.name) ∧
    (∀ (db : DB) (name : String) (asOf : Option String) (x : Ledger),
      matchingLedgers db name ≠ [] →
      getAccountBalance
        (some ⟨db.mst_ledger ++ [x], db.trn_voucher, db.trn_accounting,
          db.trn_inventory, db.mst_stock_item⟩) name asOf =
      getAccountBalance (some db) name asOf) ∧
    (∀ (db : DB) (pat : String) (i : StockItem) (rest : List StockItem),
      matchingItems db pat = i :: rest →
      (getItemDetails (some db) pat).1.item_master = some i) ∧
    (∀ (db : DB) (pat : String) (x : StockItem),
      matchingItems db pat ≠ [] →
      getItemDetails
        (some ⟨db.mst_ledger, db.trn_voucher, db.trn_accounting,
          db.trn_inventory, db.mst_stock_item ++ [x]⟩) pat =
      getItemDetails (some db) pat) := by
  refine ⟨?_, ?_, ?_, ?_⟩
  · intro db name l rest h
    unfold getAccountBalance getAccountBalanceGo
    simp only [runQ, h]
  · intro db name asOf x hne
    unfold getAccountBalance
    cases asOf with
    | none => exact getAccountBalanceGo_append db x name none none hne
    | some s =>
      cases hp : parseDate s with
      | none => simp only [hp]
      | some d =>
        simp only [hp]
        exact getAccountBalanceGo_append db x name (some s) (some d) hne
  · intro db pat i rest h
    unfold getItemDetails
    simp only [runQ, h]
  · intro db pat x hne
    obtain ⟨i, rest, h⟩ := List.exists_cons_of_ne_nil hne
    have hm : matchingItems
        (⟨db.mst_ledger, db.trn_voucher, db.trn_accounting,
          db.trn_inventory, db.mst_stock_item ++ [x]⟩ : DB) pat =
        i :: (rest ++ (([x] : List StockItem).filter fun it =>
          likeContains it.name pat)) := by
      unfold matchingItems at *
      simp only [List.filter_append] at *
      rw [h]
      rfl
    unfold getItemDetails
    simp only [runQ, h, hm]
    rfl

/-- Witness for C5 amended: on the two-match store, the first table-order
row `Cash B` is the resolved account, and appending a third match leaves the
result unchanged. -/
theorem spec_c5_amended_witness :
    (getAccountBalance (some c5DB2) "Cash" none).1.account_name = some "Cash B" ∧
    getAccountBalance
      (some ⟨c5DB2.mst_ledger ++ [⟨"Cash C", "", 1, none, 1, "", ""⟩],
        c5DB2.trn_voucher, c5DB2.trn_accounting, c5DB2.trn_inventory,
        c5DB2.mst_stock_item⟩) "Cash" none =
    getAccountBalance (some c5DB2) "Cash" none :=
  ⟨spec_c5_amended.1 c5DB2 "Cash" c5L1 [c5L2] (by decide),
   spec_c5_amended.2.1 c5DB2 "Cash" none ⟨"Cash C", "", 1, none, 1, "", ""⟩
     (by decide)⟩

end BizAdk

namespace BizAdk

/-! ### C6: latest-N transactions -/

/-- In a pairwise-ordered list, the head is related to every other member. -/
theorem pairwise_head_rel {α : Type} {r : α → α → Prop} {a : α} {l : List α}
    (hp : List.Pairwise r (a :: l)) : ∀ x ∈ a :: l, x = a ∨ r a x := by
  intro x hx
  rcases List.mem_cons.mp hx with rfl | hx
  · exact Or.inl rfl
  · exact Or.inr ((List.pairwise_cons.mp hp).1 x hx)

/-- In a pairwise-ordered list, every member is related to the last element. -/
theorem pairwise_getLast_rel {α : Type} {r : α → α → Prop} :
    ∀ {l : List α}, List.Pairwise r l → ∀ x ∈ l, ∀ {y : α},
      l.getLast? = some y → x = y ∨ r x y := by
  intro l
  induction l with
  | nil => intro _ x hx; simp at hx
  | cons a t ih =>
    intro hp x hx y hy
    cases t with
    | nil =>
      simp only [List.getLast?_singleton, Option.some.injEq] at hy
      rcases List.mem_cons.mp hx with rfl | hx
      · exact Or.inl hy
      · simp at hx
    | cons b t' =>
      rw [List.getLast?_cons_cons] at hy
      rcases List.mem_cons.mp hx with rfl | hx
      · refine Or.inr ((List.pairwise_cons.mp hp).1 y ?_)
        exact List.mem_of_getLast?_eq_some hy
      · exact ih (List.pairwise_cons.mp hp).2 x hx hy

/-- C6: in latest-N mode (no date range), a successful
`get_latest_transactions` returns at most `limit` rows, ordered by voucher
date descending then voucher number descending, and its `date_range` string
reports exactly the minimum and maximum voucher dates of the returned set. -/
theorem spec_c6_latest_transactions :
    ∀ (store : Option DB) (ttype : String) (lim : Nat) (party : Option String),
      (getLatestTransactions store ttype lim party).1.status = "success" →
      (getLatestTransactions store ttype lim party).1.transactions.length ≤ lim ∧
      List.Sorted txnGe (getLatestTransactions store ttype lim party).1.transactions ∧
      ∃ o hi : Date,
        (∀ t ∈ (getLatestTransactions store ttype lim party).1.transactions,
          Date.leP o t.date ∧ Date.leP t.date hi) ∧
        (∃ t ∈ (getLatestTransactions store ttype lim party).1.transactions, t.date = o) ∧
        (∃ t ∈ (getLatestTransactions store ttype lim party).1.transactions, t.date = hi) ∧
        (getLatestTransactions store ttype lim party).1.date_range =
          some (o.toStr ++ " to " ++ hi.toStr) := by
  intro store ttype lim party hst
  unfold getLatestTransactions at hst ⊢
  by_cases hv : (!(ttype == "payment" || ttype == "receipt" || ttype == "both")) = true
  · rw [if_pos hv] at hst
    simp at hst
  · rw [if_neg hv] at hst ⊢
    by_cases he : (runQ store (ltQuery ttype party lim)).isEmpty = true
    · rw [if_pos he] at hst
      simp at hst
    · rw [if_neg he] at hst ⊢
      have hne : runQ store (ltQuery ttype party lim) ≠ [] :=
        fun h => he (List.isEmpty_iff.mpr h)
      rcases store with - | db
      · exact absurd rfl hne
      · have hsorted : List.Sorted txnGe (runQ (some db) (ltQuery ttype party lim)) := by
          simp only [runQ, ltQuery]
          exact (List.sorted_insertionSort txnGe _).sublist (List.take_sublist _ _)
        have hlen : (runQ (some db) (ltQuery ttype party lim)).length ≤ lim := by
          simp only [runQ, ltQuery]
          rw [List.length_take]
          exact min_le_left _ _
        obtain ⟨t0, rest, hcons⟩ := List.exists_cons_of_ne_nil hne
        have hlast : (runQ (some db) (ltQuery ttype party lim)).getLast?.isSome :=
          List.getLast?_isSome.mpr hne
        obtain ⟨tl, htl⟩ := Option.isSome_iff_exists.mp hlast
        refine ⟨hlen, hsorted, tl.date, t0.date, ?_, ⟨tl, ?_, rfl⟩, ⟨t0, ?_, rfl⟩, ?_⟩
        · intro t ht
          constructor
          · rcases pairwise_getLast_rel hsorted t ht htl with rfl | hr
            · exact Date.leP_refl _
            · exact txnGe_date hr
          · rcases pairwise_head_rel (hcons ▸ hsorted) t (hcons ▸ ht) with rfl | hr
            · exact Date.leP_refl _
            · exact txnGe_date hr
        · exact List.mem_of_getLast?_eq_some htl
        · exact hcons ▸ List.mem_cons_self t0 rest
        · simp only [hcons, List.head?_cons, Option.map_some, Option.getD_some] at *
          rw [htl]
          simp

/-- Witness for C6 on the concrete-scenario store (its one payment voucher):
a successful call returning at most 5 rows. -/
theorem spec_c6_latest_transactions_witness :
    (getLatestTransactions (some c1DB) "payment" 5 none).1.status = "success" ∧
    (getLatestTransactions (some c1DB) "payment" 5 none).1.transactions.length ≤ 5 := by
  have hst : (getLatestTransactions (some c1DB) "payment" 5 none).1.status = "success" := by
    decide
  exact ⟨hst, (spec_c6_latest_transactions (some c1DB) "payment" 5 none hst).1⟩

end BizAdk

namespace BizAdk

/-! ### C8: period key formats -/

/-- `YYYY-MM-DD` shape: ten characters, digits around dashes at positions 4
and 7. -/
def isDailyKey (s : String) : Bool :=
  match s.data with
  | [a, b, c, d, '-', e, f, '-', g, h] =>
    a.isDigit && b.isDigit && c.isDigit && d.isDigit && e.isDigit && f.isDigit
      && g.isDigit && h.isDigit
  | _ => false

/-- `YYYY-NN` shape: seven characters, four digits, dash, two digits. -/
def isYmKey (s : String) : Bool :=
  match s.data with
  | [a, b, c, d, '-', e, f] =>
    a.isDigit && b.isDigit && c.isDigit && d.isDigit && e.isDigit && f.isDigit
  | _ => false

/-- The `YYYY-Www` shape claimed by the spec for weekly keys: a literal `W`
before the two week digits. -/
def isWwwKey (s : String) : Bool :=
  match s.data with
  | [a, b, c, d, '-', 'W', e, f] =>
    a.isDigit && b.isDigit && c.isDigit && d.isDigit && e.isDigit && f.isDigit
  | _ => false

theorem digitChar_isDigit (n : Nat) : (digitChar n).isDigit = true := by
  unfold digitChar
  have h : n % 10 < 10 := Nat.mod_lt _ (by norm_num)
  set k := n % 10 with hk
  interval_cases k <;> rfl

/-- Every join row of `leftJoinAcc` carries one of the given vouchers. -/
theorem mem_leftJoinAcc_fst {db : DB} {vs : List Voucher}
    {r : Voucher × Option AccRow} (hr : r ∈ leftJoinAcc db vs) : r.1 ∈ vs := by
  unfold leftJoinAcc at hr
  simp only [List.mem_flatMap, List.mem_map] at hr
  obtain ⟨v, hv, _, _, rfl⟩ := hr
  exact hv

/-- Every join row of `leftJoin2` carries one of the given vouchers. -/
theorem mem_leftJoin2_fst {db : DB} {vs : List Voucher}
    {r : Voucher × Option AccRow × Option InvRow} (hr : r ∈ leftJoin2 db vs) :
    r.1 ∈ vs := by
  unfold leftJoin2 at hr
  simp only [List.mem_flatMap, List.mem_map] at hr
  obtain ⟨v, hv, _, _, _, _, rfl⟩ := hr
  exact hv

/-- The single-voucher store for the weekly-key counterexample: 2024-02-03
lies in `%W` week 05 of 2024. -/
def c8DB : DB :=
  { mst_ledger := [],
    trn_voucher := [⟨1, ⟨2024, 2, 3⟩, "Sales", 1, some "X", "", ""⟩],
    trn_accounting := [⟨1, "Sales", 100⟩],
    trn_inventory := [],
    mst_stock_item := [] }

/-- C8 counterexample: grouping weekly, the emitted period key for
2024-02-03 is `2024-05` (SQLite `strftime('%Y-%W', ...)`), which does not
match the claimed `YYYY-Www` format — there is no `W` literal. -/
theorem spec_c8_counterexample :
    ((getRevenueAnalysis (some c8DB) "weekly" none none).1.revenue_analysis.map
      fun r => r.period) = ["2024-05"] ∧
    isWwwKey "2024-05" = false := by
  constructor <;> decide

/-- C8 amended: every period key emitted by the revenue and procurement
analyses is the date key of one of the store's voucher dates; daily keys
have the `YYYY-MM-DD` shape, monthly (and unrecognized-period) keys the
`YYYY-MM` shape, and weekly keys the `YYYY-WW` shape — four year digits, a
dash and the two-digit `%W` week number, with no `W` literal. -/
theorem spec_c8_amended :
    (∀ (db : DB) (p : String) (df dt : Option String) (row : RAPeriod),
      row ∈ (getRevenueAnalysis (some db) p df dt).1.revenue_analysis →
      ∃ v ∈ db.trn_voucher, row.period = dateKey p v.date) ∧
    (∀ (db : DB) (p : String) (df dt cat : Option String) (row : ProcPeriod),
      row ∈ (getProcurementAnalysis (some db) p df dt cat).1.procurement_analysis →
      ∃ v ∈ db.trn_voucher, row.period = dateKey p v.date) ∧
    (∀ d : Date, isDailyKey (dateKey "daily" d) = true) ∧
    (∀ d : Date, isYmKey (dateKey "weekly" d) = true ∧
      isWwwKey (dateKey "weekly" d) = false) ∧
    (∀ (p : String) (d : Date), p ≠ "daily" → p ≠ "weekly" →
      dateKey p d = keyYm d ∧ isYmKey (dateKey p d) = true) := by
  refine ⟨?_, ?_, ?_, ?_, ?_⟩
  · intro db p df dt row hrow
    unfold getRevenueAnalysis at hrow
    rcases hq : runQ (some db) (revenueAnalysisQuery p df dt) with - | ⟨r, rs⟩ <;>
      rw [hq] at hrow
    · simp at hrow
    · simp only at hrow
      have hrow' : row ∈ revenueAnalysisQuery p df dt db := by
        rw [show revenueAnalysisQuery p df dt db = r :: rs from hq]
        exact hrow
      unfold revenueAnalysisQuery at hrow'
      simp only [List.mem_map] at hrow'
      obtain ⟨k, hk, rfl⟩ := hrow'
      have hk' := (List.perm_insertionSort strLe _).mem_iff.mp hk
      rw [mem_dedup] at hk'
      simp only [List.mem_map] at hk'
      obtain ⟨jr, hjr, rfl⟩ := hk'
      refine ⟨jr.1, ?_, rfl⟩
      exact List.mem_filter.mp (mem_leftJoinAcc_fst hjr) |>.1
  · intro db p df dt cat row hrow
    unfold getProcurementAnalysis at hrow
    rcases hq : runQ (some db) (procurementAnalysisQuery p df dt cat) with - | ⟨r, rs⟩ <;>
      rw [hq] at hrow
    · simp at hrow
    · simp only at hrow
      have hrow' : row ∈ procurementAnalysisQuery p df dt cat db := by
        rw [show procurementAnalysisQuery p df dt cat db = r :: rs from hq]
        exact hrow
      unfold procurementAnalysisQuery at hrow'
      simp only [List.mem_map] at hrow'
      obtain ⟨k, hk, rfl⟩ := hrow'
      have hk' := (List.perm_insertionSort strLe _).mem_iff.mp hk
      rw [mem_dedup] at hk'
      simp only [List.mem_map] at hk'
      obtain ⟨jr, hjr, rfl⟩ := hk'
      refine ⟨jr.1, ?_, rfl⟩
      exact mem_leftJoin2_fst (List.mem_filter.mp hjr).1
  · intro d
    simp only [dateKey, Date.toStr, pad4, pad2, isDailyKey]
    simp [digitChar_isDigit]
  · intro d
    constructor
    · simp only [dateKey, keyYW, pad4, pad2, isYmKey]
      simp [digitChar_isDigit]
    · simp only [dateKey, keyYW, pad4, pad2, isWwwKey, List.cons_append,
        List.nil_append]
      simp
  · intro p d hd hw
    have h1 : (p == "daily") = false := by
      simpa using hd
    have h2 : (p == "weekly") = false := by
      simpa using hw
    constructor
    · simp [dateKey, h1, h2]
    · simp only [dateKey, h1, h2, Bool.false_eq_true, if_false, keyYm, pad4, pad2,
        isYmKey]
      simp [digitChar_isDigit]

/-- Witness for C8 amended at the counterexample store: the one weekly row's
key is the `%W` key of the voucher date. -/
theorem spec_c8_amended_witness :
    (∃ v ∈ c8DB.trn_voucher, "2024-05" = dateKey "weekly" v.date) ∧
    isYmKey (dateKey "weekly" (⟨2024, 2, 3⟩ : Date)) = true := by
  constructor
  · have hmap : ((getRevenueAnalysis (some c8DB) "weekly" none none).1.revenue_analysis.map
        fun r => r.period) = ["2024-05"] := by decide
    have hmem : "2024-05" ∈ ((getRevenueAnalysis (some c8DB) "weekly"
        none none).1.revenue_analysis.map fun r => r.period) := by
      rw [hmap]; exact List.mem_singleton_self _
    obtain ⟨row, hrowmem, hperiod⟩ := List.mem_map.mp hmem
    obtain ⟨v, hv, heq⟩ := spec_c8_amended.1 c8DB "weekly" none none row hrowmem
    exact ⟨v, hv, hperiod ▸ heq⟩
  · exact (spec_c8_amended.2.2.2.1 ⟨2024, 2, 3⟩).1

end BizAdk

namespace BizAdk

/-! ### C9: in-band status discipline -/

/-- The status vocabulary of every tool result. -/
def statusOk (s : String) : Prop := s = "success" ∨ s = "no_data" ∨ s = "error"

/-- C9: every embedded operation is a total function (no exception escapes to
the caller) whose result carries a status in `{success, no_data, error}`;
whenever the status is not `success` a human-readable message is present and
the domain payload is empty. -/
theorem spec_c9_status_discipline :
    (∀ (store : Option DB) (name : String) (asOf : Option String),
      statusOk (getAccountBalance store name asOf).1.status ∧
      ((getAccountBalance store name asOf).1.status ≠ "success" →
        (getAccountBalance store name asOf).1.error_message.isSome ∧
        (getAccountBalance store name asOf).1.balance = none)) ∧
    (∀ (store : Option DB) (sd ed : String),
      statusOk (getCashFlow store sd ed).1.status ∧
      ((getCashFlow store sd ed).1.status ≠ "success" →
        (getCashFlow store sd ed).1.error_message.isSome ∧
        (getCashFlow store sd ed).1.total_inflow = none ∧
        (getCashFlow store sd ed).1.cash_flow_by_type = [])) ∧
    (∀ (store : Option DB) (sd ed : String),
      statusOk (getProfitLoss store sd ed).1.status ∧
      ((getProfitLoss store sd ed).1.status ≠ "success" →
        (getProfitLoss store sd ed).1.error_message.isSome ∧
        (getProfitLoss store sd ed).1.income_accounts = [] ∧
        (getProfitLoss store sd ed).1.total_income = none)) ∧
    (∀ (today : Date) (store : Option DB) (tt : String) (sd ed pn : Option String)
      (lim : Option Nat),
      statusOk (getPaymentReceipts today store tt sd ed pn lim).1.status ∧
      ((getPaymentReceipts today store tt sd ed pn lim).1.status ≠ "success" →
        (getPaymentReceipts today store tt sd ed pn lim).1.error_message.isSome ∧
        (getPaymentReceipts today store tt sd ed pn lim).1.transactions = [] ∧
        (getPaymentReceipts today store tt sd ed pn lim).1.total_amount = none)) ∧
    (∀ (store : Option DB) (tt : String) (lim : Nat) (pn : Option String),
      statusOk (getLatestTransactions store tt lim pn).1.status ∧
      ((getLatestTransactions store tt lim pn).1.status ≠ "success" →
        (getLatestTransactions store tt lim pn).1.error_message.isSome ∧
        (getLatestTransactions store tt lim pn).1.transactions = [] ∧
        (getLatestTransactions store tt lim pn).1.date_range = none)) ∧
    (∀ (store : Option DB) (at_ : Option String) (iz : Bool),
      statusOk (getLedgerSummary store at_ iz).1.status ∧
      ((getLedgerSummary store at_ iz).1.status ≠ "success" →
        (getLedgerSummary store at_ iz).1.error_message.isSome ∧
        (getLedgerSummary store at_ iz).1.accounts = [] ∧
        (getLedgerSummary store at_ iz).1.total_balance = none)) ∧
    (∀ (store : Option DB) (pat : String),
      statusOk (getItemDetails store pat).1.status ∧
      ((getItemDetails store pat).1.status ≠ "success" →
        (getItemDetails store pat).1.error_message.isSome ∧
        (getItemDetails store pat).1.item_master = none)) ∧
    (∀ (store : Option DB) (sd ed : String) (item : Option String),
      statusOk (getStockMovements store sd ed item).1.status ∧
      ((getStockMovements store sd ed item).1.status ≠ "success" →
        (getStockMovements store sd ed item).1.error_message.isSome ∧
        (getStockMovements store sd ed item).1.movements = [] ∧
        (getStockMovements store sd ed item).1.total_in = none)) ∧
    (∀ (store : Option DB) (lim : Nat) (bv : Bool),
      statusOk (getTopItems store lim bv).1.status ∧
      ((getTopItems store lim bv).1.status ≠ "success" →
        (getTopItems store lim bv).1.error_message.isSome ∧
        (getTopItems store lim bv).1.top_items = [])) ∧
    (∀ (store : Option DB) (df dt c vt : Option String),
      statusOk (getSalesSummary store df dt c vt).1.status ∧
      ((getSalesSummary store df dt c vt).1.status ≠ "success" →
        (getSalesSummary store df dt c vt).1.message.isSome ∧
        (getSalesSummary store df dt c vt).1.total_revenue = none ∧
        (getSalesSummary store df dt c vt).1.period = none)) ∧
    (∀ (store : Option DB) (p : String) (df dt : Option String),
      statusOk (getRevenueAnalysis store p df dt).1.status ∧
      ((getRevenueAnalysis store p df dt).1.status ≠ "success" →
        (getRevenueAnalysis store p df dt).1.message.isSome ∧
        (getRevenueAnalysis store p df dt).1.revenue_analysis = [])) ∧
    (∀ (store : Option DB) (m : String) (lim : Nat) (df dt : Option String),
      statusOk (getTopCustomers store m lim df dt).1.status ∧
      ((getTopCustomers store m lim df dt).1.status ≠ "success" →
        (getTopCustomers store m lim df dt).1.message.isSome ∧
        (getTopCustomers store m lim df dt).1.top_customers = [])) ∧
    (∀ (store : Option DB) (df dt sp vt : Option String),
      statusOk (getPurchaseSummary store df dt sp vt).1.status ∧
      ((getPurchaseSummary store df dt sp vt).1.status ≠ "success" →
        (getPurchaseSummary store df dt sp vt).1.message.isSome ∧
        (getPurchaseSummary store df dt sp vt).1.total_purchase_cost = none)) ∧
    (∀ (store : Option DB) (p : String) (df dt cat : Option String),
      statusOk (getProcurementAnalysis store p df dt cat).1.status ∧
      ((getProcurementAnalysis store p df dt cat).1.status ≠ "success" →
        (getProcurementAnalysis store p df dt cat).1.message.isSome ∧
        (getProcurementAnalysis store p df dt cat).1.procurement_analysis = [])) ∧
    (∀ (store : Option DB) (df dt : Option String),
      statusOk (getBusinessOverview store df dt).1.status ∧
      ((getBusinessOverview store df dt).1.status ≠ "success" →
        (getBusinessOverview store df dt).1.message.isSome ∧
        (getBusinessOverview store df dt).1.total_inflows = none)) := by
  refine ⟨?_, ?_, ?_, ?_, ?_, ?_, ?_, ?_, ?_, ?_, ?_, ?_, ?_, ?_, ?_⟩
  · intro store name asOf
    unfold getAccountBalance getAccountBalanceGo
    try dsimp only
    repeat' split
    all_goals simp [statusOk]
  · intro store sd ed
    unfold getCashFlow
    try dsimp only
    repeat' split
    all_goals simp [statusOk]
  · intro store sd ed
    unfold getProfitLoss
    try dsimp only
    repeat' split
    all_goals simp [statusOk]
  · intro today store tt sd ed pn lim
    unfold getPaymentReceipts getPaymentReceiptsGo
    try dsimp only
    repeat' split
    all_goals simp [statusOk]
  · intro store tt lim pn
    unfold getLatestTransactions
    try dsimp only
    repeat' split
    all_goals simp [statusOk]
  · intro store at_ iz
    unfold getLedgerSummary
    try dsimp only
    repeat' split
    all_goals simp [statusOk]
  · intro store pat
    unfold getItemDetails
    try dsimp only
    repeat' split
    all_goals simp [statusOk]
  · intro store sd ed item
    unfold getStockMovements
    try dsimp only
    repeat' split
    all_goals simp [statusOk]
  · intro store lim bv
    unfold getTopItems
    try dsimp only
    repeat' split
    all_goals simp [statusOk]
  · intro store df dt c vt
    unfold getSalesSummary
    try dsimp only
    repeat' split
    all_goals simp [statusOk]
  · intro store p df dt
    unfold getRevenueAnalysis
    try dsimp only
    repeat' split
    all_goals simp [statusOk]
  · intro store m lim df dt
    unfold getTopCustomers
    try dsimp only
    repeat' split
    all_goals simp [statusOk]
  · intro store df dt sp vt
    unfold getPurchaseSummary
    try dsimp only
    repeat' split
    all_goals simp [statusOk]
  · intro store p df dt cat
    unfold getProcurementAnalysis
    try dsimp only
    repeat' split
    all_goals simp [statusOk]
  · intro store df dt
    unfold getBusinessOverview
    try dsimp only
    repeat' split
    all_goals simp [statusOk]

/-- Witness for C9: a malformed date makes `get_account_balance` return an
in-band error with a message and no payload, and a valid empty-store call
returns `no_data` in the allowed vocabulary. -/
theorem spec_c9_status_discipline_witness :
    statusOk (getAccountBalance (some emptyDB) "Cash" (some "not-a-date")).1.status ∧
    (getAccountBalance (some emptyDB) "Cash" (some "not-a-date")).1.error_message.isSome ∧
    (getAccountBalance (some emptyDB) "Cash" (some "not-a-date")).1.balance = none ∧
    statusOk (getCashFlow none "2024-01-01" "2024-01-31").1.status := by
  have h := (spec_c9_status_discipline.1 (some emptyDB) "Cash" (some "not-a-date"))
  have h2 := h.2 (by decide)
  exact ⟨h.1, h2.1, h2.2,
    (spec_c9_status_discipline.2.1 none "2024-01-01" "2024-01-31").1⟩

end BizAdk
